import Mathlib

/-! Verification development for the PediaFlow pediatric fluid-resuscitation
core (`backend/core_physics.py`, `backend/constants.py`, `backend/safety.py`).
The Python simulator is shallowly embedded over exact rationals.  The source
uses two transcendental floating-point primitives, `x ** e` with a fractional
exponent and `math.exp`; these are threaded through every definition as an
explicit interpretation `TranscendOps`, so that each universal theorem is
proved for every interpretation of those primitives (the clamp- and
mass-balance structure of the simulator does not depend on their values).
Concrete evaluations instantiate `refOps`, which is exact at the rational
points at which the chosen concrete inputs actually apply the primitives
(the only such point is `1.0 ** 0.5 = 1.0`); every other primitive call made
on those inputs is discarded by a branch before it can influence a result. -/

set_option maxRecDepth 40000
set_option allowUnsafeReducibility true
attribute [semireducible] Rat.add Rat.sub Rat.neg Rat.mul Rat.div Rat.inv Rat.blt
attribute [semireducible] Rat.normalize Rat.ofScientific mkRat
attribute [semireducible] Rat.instDecidableLt Rat.instDecidableLe

namespace PediaFlow

/-- Interpretation of the two transcendental floating-point primitives used
by the source: `powR x e` stands for the Python expression `x ** e` with a
non-integer exponent (also covering `math.sqrt` via `e = 0.5`), and `expR x`
stands for `math.exp(x)`. -/
structure TranscendOps where
  powR : ℚ → ℚ → ℚ
  expR : ℚ → ℚ

/-- Reference interpretation used only for concrete evaluations.  It returns
the exact value at the single rational point the concrete inputs reach
(`1 ** e = 1`, as in IEEE floating point) and a sentinel elsewhere; the
concrete inputs are chosen so that every other primitive application is
discarded by a branch of the source before influencing any result. -/
def refOps : TranscendOps :=
  { powR := fun x _ => if x = 1 then 1 else 0
    expR := fun _ => 0 }

/-- Closed diagnosis tag set, from `models.ClinicalDiagnosis`. -/
inductive ClinicalDiagnosis
  | SEVERE_DEHYDRATION
  | SEPTIC_SHOCK
  | DENGUE_SHOCK
  | SAM_DEHYDRATION
  | UNKNOWN
  | SEVERE_ANEMIA
deriving DecidableEq, Repr

/-- Closed fluid tag set, from `constants.FluidType`. -/
inductive FluidType
  | RL
  | NS
  | D5_NS
  | RESOMAL
  | PRBC
  | COLLOID_ALBUMIN
  | ORS_SOLUTION
  | HALF_NS
  | D5_HALF
deriving DecidableEq, Repr

/-- Ongoing-loss severity, from `models.OngoingLosses`; `val` is the enum
value in ml/kg/hr. -/
inductive OngoingLosses
  | NONE
  | MILD
  | MODERATE
  | SEVERE
deriving DecidableEq, Repr

def OngoingLosses.val : OngoingLosses → ℚ
  | .NONE => 0
  | .MILD => 5
  | .MODERATE => 7
  | .SEVERE => 10

/-- Physical fluid properties, from `constants.FluidProperties`. -/
structure FluidProperties where
  sodium_meq_l : ℚ
  glucose_g_l : ℚ
  oncotic_pressure_mmhg : ℚ
  vol_distribution_intravascular : ℚ
  potassium_meq_l : ℚ
  is_colloid : Bool
  osmolarity : ℚ

/-- The fluid library lookup `FLUID_LIBRARY.get`, from `constants.py`.  All
nine tags are present in the table, so the RL fallback of `.get` is never
taken and the lookup is total. -/
def fluidLibraryGet : FluidType → FluidProperties
  | .RL => ⟨130, 0, 0, 0.25, 4, false, 273⟩
  | .NS => ⟨154, 0, 0, 0.25, 0, false, 308⟩
  | .RESOMAL => ⟨45, 25, 0, 0.20, 40, false, 280⟩
  | .D5_NS => ⟨154, 50, 0, 0.20, 0, false, 560⟩
  | .COLLOID_ALBUMIN => ⟨145, 0, 20, 1, 0, true, 308⟩
  | .PRBC => ⟨140, 0, 25, 1, 4, true, 300⟩
  | .ORS_SOLUTION => ⟨75, 13.5, 0, 0.20, 20, false, 280⟩
  | .HALF_NS => ⟨77, 0, 0, 0.15, 0, false, 154⟩
  | .D5_HALF => ⟨77, 50, 0, 0.15, 0, false, 432⟩

/-- Validated bedside snapshot, from `models.PatientInput`.  Fields the core
never reads (sex, iv set, baseline hematocrit, target hemoglobin) are
omitted.  Optional fields are `Option ℚ`; Python truthiness of plain floats
is modelled by explicit comparison with `0` at each use site. -/
structure PatientInput where
  age_months : ℚ
  weight_kg : ℚ
  muac_cm : ℚ
  temp_celsius : ℚ
  hemoglobin_g_dl : ℚ
  systolic_bp : ℚ
  heart_rate : ℚ
  capillary_refill_sec : ℚ
  sp_o2_percent : ℚ
  respiratory_rate_bpm : ℚ
  diastolic_bp : Option ℚ
  lactate_mmol_l : Option ℚ
  illness_day : Option ℚ
  plasma_albumin_g_dl : Option ℚ
  platelet_count : Option ℚ
  current_sodium : ℚ
  current_glucose : ℚ
  hematocrit_pct : ℚ
  diagnosis : ClinicalDiagnosis
  time_since_last_urine_hours : ℚ
  ongoing_losses_severity : OngoingLosses
  baseline_hepatomegaly : Bool
  height_cm : Option ℚ

/-- The numeric validation performed by `PatientInput.__post_init__`
(`models.py`): clinical hard stops, range checks, diastolic and dengue
consistency, and the BMI check. -/
def PatientInput.Valid (inp : PatientInput) : Prop :=
  40 ≤ inp.systolic_bp ∧ 80 ≤ inp.sp_o2_percent ∧ 4 ≤ inp.hemoglobin_g_dl ∧
  (inp.diastolic_bp.all fun d => decide (20 ≤ d ∧ d ≤ 150 ∧ d < inp.systolic_bp)) = true ∧
  (inp.diagnosis = ClinicalDiagnosis.DENGUE_SHOCK →
    (inp.illness_day.any fun d => decide (1 ≤ d ∧ d ≤ 14)) = true) ∧
  0 ≤ inp.age_months ∧ inp.age_months ≤ 216 ∧
  0.5 ≤ inp.weight_kg ∧ inp.weight_kg ≤ 100 ∧
  5 ≤ inp.muac_cm ∧ inp.muac_cm ≤ 35 ∧
  25 ≤ inp.temp_celsius ∧ inp.temp_celsius ≤ 42 ∧
  1 ≤ inp.hemoglobin_g_dl ∧ inp.hemoglobin_g_dl ≤ 25 ∧
  30 ≤ inp.systolic_bp ∧ inp.systolic_bp ≤ 240 ∧
  30 ≤ inp.heart_rate ∧ inp.heart_rate ≤ 300 ∧
  10 ≤ inp.respiratory_rate_bpm ∧ inp.respiratory_rate_bpm ≤ 120 ∧
  (inp.height_cm.all fun h =>
    decide (10 ≤ inp.weight_kg / ((h / 100) ^ 2) ∧ inp.weight_kg / ((h / 100) ^ 2) ≤ 35)) = true

/-- Per-patient constants, from `models.PhysiologicalParams` with the three
extra fields (`is_sam`, `final_starting_blood_volume_l`,
`capillary_recruitment_base`) that `core_physics.initialize_physics_engine`
supplies to the constructor. -/
structure PhysiologicalParams where
  tbw_fraction : ℚ
  v_blood_normal_l : ℚ
  v_inter_normal_l : ℚ
  cardiac_contractility : ℚ
  heart_stiffness_k : ℚ
  svr_resistance : ℚ
  capillary_filtration_k : ℚ
  blood_viscosity_eta : ℚ
  tissue_compliance_factor : ℚ
  renal_maturity_factor : ℚ
  max_cardiac_output_l_min : ℚ
  venous_compliance_ml_mmhg : ℚ
  osmotic_conductance_k : ℚ
  lymphatic_drainage_capacity_ml_min : ℚ
  intracellular_sodium_bias : ℚ
  target_map_mmhg : ℚ
  target_heart_rate_upper_limit : ℤ
  target_respiratory_rate_limit : ℤ
  insensible_loss_ml_min : ℚ
  plasma_oncotic_pressure_mmhg : ℚ
  reflection_coefficient_sigma : ℚ
  glucose_utilization_mg_kg_min : ℚ
  afterload_sensitivity : ℚ
  baseline_capillary_pressure_mmhg : ℚ
  optimal_preload_ml : ℚ
  weight_kg : ℚ
  interstitial_compliance_ml_mmhg : ℚ
  target_cvp_mmhg : ℚ
  albumin_uncertainty_g_dl : ℚ
  is_sam : Bool
  final_starting_blood_volume_l : ℚ
  capillary_recruitment_base : ℚ

/-- Time-varying state vector, from `models.SimulationState` together with
the metabolite and bookkeeping fields that `core_physics.py` reads and
writes on it (`current_hemoglobin`, `current_potassium`,
`current_lactate_mmol_l`, `is_sam`, `capillary_recruitment_base`,
`final_starting_blood_volume_l`). -/
structure SimulationState where
  time_minutes : ℚ
  v_blood_current_l : ℚ
  v_interstitial_current_l : ℚ
  v_intracellular_current_l : ℚ
  map_mmHg : ℚ
  cvp_mmHg : ℚ
  pcwp_mmHg : ℚ
  p_interstitial_mmHg : ℚ
  q_infusion_ml_min : ℚ
  q_leak_ml_min : ℚ
  q_urine_ml_min : ℚ
  q_lymph_ml_min : ℚ
  q_osmotic_shift_ml_min : ℚ
  total_volume_infused_ml : ℚ
  total_sodium_load_meq : ℚ
  current_hematocrit_dynamic : ℚ
  current_weight_dynamic_kg : ℚ
  q_ongoing_loss_ml_min : ℚ
  q_insensible_loss_ml_min : ℚ
  current_glucose_mg_dl : ℚ
  cumulative_bolus_count : ℕ
  time_since_last_bolus_min : ℚ
  current_sodium : ℚ
  current_hemoglobin : ℚ
  current_potassium : ℚ
  current_lactate_mmol_l : ℚ
  is_sam : Bool
  capillary_recruitment_base : ℚ
  final_starting_blood_volume_l : ℚ


/-! Derivative evaluation, from `_calculate_derivatives`
(`core_physics.py` lines 705-912).  Each quantity of the Python function is a
named definition on the incoming state; the step evaluates them twice, once
on the incoming state and once on the volume-updated temporary state. -/

/-- Preload stretch ratio (`preload_ratio`, line 720-724): blood volume in ml
over the optimal preload floored at 10 ml. -/
def preloadRatio (s : SimulationState) (p : PhysiologicalParams) : ℚ :=
  s.v_blood_current_l * 1000 / max p.optimal_preload_ml 10

/-- Frank-Starling efficiency (`preload_efficiency`, lines 731-747):
sympathetic boost below 0.8 for non-SAM, linear to 1, plateau to 1.3, then
failure floored at 0.85. -/
def preloadEfficiency (s : SimulationState) (p : PhysiologicalParams) : ℚ :=
  let r := preloadRatio s p
  if r ≤ 1 then
    if r < 0.8 ∧ p.is_sam = false then
      r * (1 + (0.8 - r) * (0.3 * p.cardiac_contractility))
    else r
  else if r ≤ 1.3 then 1
  else max 0.85 (1 - (r - 1.3) * 0.3)

/-- Afterload factor from the calibrated SVR (lines 752-755). -/
def afterloadFactor (p : PhysiologicalParams) : ℚ :=
  max 0.5 (1 / max 0.1 (1 + (p.svr_resistance / 1000 - 1) * p.afterload_sensitivity))

/-- Baroreflex SVR target (lines 761-777): relax toward the CVP-refill
vasodilation only when normotensive with a near-full heart; otherwise clamp
to the calibrated baseline. -/
def targetSvr (ops : TranscendOps) (s : SimulationState) (p : PhysiologicalParams) : ℚ :=
  if s.map_mmHg < p.target_map_mmhg - 5 ∨ preloadRatio s p < 0.95 then
    p.svr_resistance
  else
    min (p.svr_resistance * ops.powR (p.target_cvp_mmhg / max 0.1 s.cvp_mmHg) 0.3)
      p.svr_resistance

/-- Estimated true cardiac output with the 0.01 safety floor (lines 786-790). -/
def trueCoEst (s : SimulationState) (p : PhysiologicalParams) : ℚ :=
  max 0.01
    (p.max_cardiac_output_l_min * p.cardiac_contractility * preloadEfficiency s p *
      afterloadFactor p)

/-- Dynamic SVR with arterial smooth-muscle inertia, SAM relative clamps and
the global [200, 20000] clamp (lines 792-804). -/
def svrDynamic (ops : TranscendOps) (s : SimulationState) (p : PhysiologicalParams) : ℚ :=
  let current_svr_est := (s.map_mmHg - s.cvp_mmHg) * 80 / trueCoEst s p
  let inertia : ℚ := if s.map_mmHg < p.target_map_mmhg - 5 then 0.995 else 0.999
  let d := current_svr_est * inertia + targetSvr ops s p * (1 - inertia)
  let d := if p.is_sam then max (min d (p.svr_resistance * 1.2)) (p.svr_resistance * 0.6) else d
  max 200 (min d 20000)

/-- Afterload factor recomputed from the dynamic SVR (lines 806-809). -/
def afterloadFactorUpdated (ops : TranscendOps) (s : SimulationState)
    (p : PhysiologicalParams) : ℚ :=
  max 0.5 (1 / max 0.1 (1 + (svrDynamic ops s p / 1000 - 1) * p.afterload_sensitivity))

/-- Cardiac output `co_l_min` (line 812). -/
def coLMin (ops : TranscendOps) (s : SimulationState) (p : PhysiologicalParams) : ℚ :=
  p.max_cardiac_output_l_min * p.cardiac_contractility * preloadEfficiency s p *
    afterloadFactorUpdated ops s p

/-- Derived MAP `derived_map` clamped to [30, 160] (lines 813-814). -/
def derivedMap (ops : TranscendOps) (s : SimulationState) (p : PhysiologicalParams) : ℚ :=
  max 30 (min (coLMin ops s p * svrDynamic ops s p / 80 + s.cvp_mmHg) 160)

/-- Starling capillary leak `q_leak`, floored at 0 (lines 818-850). -/
def qLeak (ops : TranscendOps) (s : SimulationState) (p : PhysiologicalParams)
    (fl : FluidProperties) : ℚ :=
  let p_capillary := p.baseline_capillary_pressure_mmhg * (derivedMap ops s p / p.target_map_mmhg)
  let current_pi_c0 := p.plasma_oncotic_pressure_mmhg * (p.v_blood_normal_l / s.v_blood_current_l)
  let current_pi_c := if fl.is_colloid then current_pi_c0 + 2 else current_pi_c0
  let hydrostatic_net := p_capillary - s.p_interstitial_mmHg
  let oncotic_net := p.reflection_coefficient_sigma * (current_pi_c - 5)
  let effective_kf :=
    if fl.is_colloid ∧ p.reflection_coefficient_sigma < 0.6 then
      p.capillary_filtration_k * 0.5
    else p.capillary_filtration_k
  let recruit : ℚ :=
    if derivedMap ops s p < 50 then 2
    else if preloadRatio s p < 0.8 then 0.5
    else 1
  let recruit := p.capillary_recruitment_base * recruit
  let recruit := if p.is_sam then min recruit 0.8 else recruit
  max 0 (effective_kf * recruit * (hydrostatic_net - oncotic_net))

/-- Lymphatic return `q_lymph` (lines 854-863). -/
def qLymph (s : SimulationState) (p : PhysiologicalParams) : ℚ :=
  let lymph_drive := min (0.2 + max 0 ((s.p_interstitial_mmHg + 2) / 4)) 3
  let lymphatic_efficiency : ℚ := if p.is_sam then 0.4 else 1
  p.lymphatic_drainage_capacity_ml_min * lymph_drive * lymphatic_efficiency

/-- Renal output `q_urine` over the piecewise perfusion ranges (lines 866-876). -/
def qUrine (ops : TranscendOps) (s : SimulationState) (p : PhysiologicalParams) : ℚ :=
  let perfusion_p := derivedMap ops s p - s.cvp_mmHg
  let baseline_gfr := 2.1 * (p.weight_kg / 10) * p.renal_maturity_factor
  if perfusion_p < 30 then 0
  else if perfusion_p < 60 then
    (perfusion_p - 30) * 0.03 * p.renal_maturity_factor *
      (1 / (1 + ops.expR (-(perfusion_p - 45) / 5)))
  else if perfusion_p < 100 then baseline_gfr
  else baseline_gfr * (1 + (perfusion_p - 100) * 0.01)

/-- Osmotic ECF-to-ICF shift `q_osmotic` (lines 881-903), active only while
fluid is flowing into a positive ECF; dextrose adds the free-water term. -/
def qOsmotic (s : SimulationState) (p : PhysiologicalParams) (fl : FluidProperties)
    (infusion_rate_ml_min : ℚ) : ℚ :=
  if 0 < infusion_rate_ml_min ∧ 0 < s.v_blood_current_l + s.v_interstitial_current_l then
    let tonic_diff := s.current_sodium - fl.sodium_meq_l
    let base := infusion_rate_ml_min / 1000 * tonic_diff *
      (p.osmotic_conductance_k * 0.005) * p.intracellular_sodium_bias
    if 0 < fl.glucose_g_l then base + infusion_rate_ml_min * 0.5 else base
  else 0

/-! Minute stepper, from `simulate_single_step` (`core_physics.py` lines
914-1147).  Every quantity of the integrator is again a named definition; the
stepper returns the state with every `replace`-listed field updated. -/

/-- Infusion rate in ml/min (`rate_min`, line 922). -/
def rateMin (infusion_rate_ml_hr : ℚ) : ℚ := infusion_rate_ml_hr / 60

/-- Blood compartment volume change in ml (`dv_blood_ml`, lines 931-937). -/
def dvBloodMl (ops : TranscendOps) (s : SimulationState) (p : PhysiologicalParams)
    (ft : FluidType) (rate_hr dt : ℚ) : ℚ :=
  let fl := fluidLibraryGet ft
  rateMin rate_hr * fl.vol_distribution_intravascular * dt +
    qLymph s p * dt - qLeak ops s p fl * dt - qUrine ops s p * dt -
    s.q_ongoing_loss_ml_min * 0.25 * dt

/-- Interstitial compartment volume change in ml (`dv_inter_ml`, lines 940-947). -/
def dvInterMl (ops : TranscendOps) (s : SimulationState) (p : PhysiologicalParams)
    (ft : FluidType) (rate_hr dt : ℚ) : ℚ :=
  let fl := fluidLibraryGet ft
  qLeak ops s p fl * dt + rateMin rate_hr * (1 - fl.vol_distribution_intravascular) * dt -
    qLymph s p * dt - s.q_ongoing_loss_ml_min * 0.75 * dt -
    s.q_insensible_loss_ml_min * dt - qOsmotic s p fl (rateMin rate_hr) * dt

/-- Intracellular volume change in ml (`dv_icf_ml`, line 950). -/
def dvIcfMl (s : SimulationState) (p : PhysiologicalParams) (ft : FluidType)
    (rate_hr dt : ℚ) : ℚ :=
  qOsmotic s p (fluidLibraryGet ft) (rateMin rate_hr) * dt

/-- New blood volume with the 40%-of-normal floor (line 953). -/
def newVBlood (ops : TranscendOps) (s : SimulationState) (p : PhysiologicalParams)
    (ft : FluidType) (rate_hr dt : ℚ) : ℚ :=
  max (s.v_blood_current_l + dvBloodMl ops s p ft rate_hr dt / 1000) (p.v_blood_normal_l * 0.4)

/-- New interstitial volume with the 0.1 L floor (line 954). -/
def newVInter (ops : TranscendOps) (s : SimulationState) (p : PhysiologicalParams)
    (ft : FluidType) (rate_hr dt : ℚ) : ℚ :=
  max (s.v_interstitial_current_l + dvInterMl ops s p ft rate_hr dt / 1000) 0.1

/-- New intracellular volume with the 0.1 L floor (line 955). -/
def newVIcf (s : SimulationState) (p : PhysiologicalParams) (ft : FluidType)
    (rate_hr dt : ℚ) : ℚ :=
  max (s.v_intracellular_current_l + dvIcfMl s p ft rate_hr dt / 1000) 0.1

/-- New CVP from venous compliance, clamped to [1, 25] (lines 958-959). -/
def newCvp (ops : TranscendOps) (s : SimulationState) (p : PhysiologicalParams)
    (ft : FluidType) (rate_hr dt : ℚ) : ℚ :=
  max 1 (min (3 + (newVBlood ops s p ft rate_hr dt - p.v_blood_normal_l) * 1000 /
    p.venous_compliance_ml_mmhg) 25)

/-- New interstitial pressure, floored at -2 (lines 961-962). -/
def newPInter (ops : TranscendOps) (s : SimulationState) (p : PhysiologicalParams)
    (ft : FluidType) (rate_hr dt : ℚ) : ℚ :=
  max (-2) ((newVInter ops s p ft rate_hr dt - p.v_inter_normal_l) * 1000 /
    p.interstitial_compliance_ml_mmhg)

/-- Temporary state with the updated volumes and pressures on which the
derivatives are re-evaluated (`new_state_temp`, lines 966-971). -/
def tempState (ops : TranscendOps) (s : SimulationState) (p : PhysiologicalParams)
    (ft : FluidType) (rate_hr dt : ℚ) : SimulationState :=
  { s with
    v_blood_current_l := newVBlood ops s p ft rate_hr dt
    v_interstitial_current_l := newVInter ops s p ft rate_hr dt
    cvp_mmHg := newCvp ops s p ft rate_hr dt
    p_interstitial_mmHg := newPInter ops s p ft rate_hr dt }

/-- Step-final MAP: re-derived on the updated volumes, then blended
0.7 previous / 0.3 new (lines 972-976). -/
def newMap (ops : TranscendOps) (s : SimulationState) (p : PhysiologicalParams)
    (ft : FluidType) (rate_hr dt : ℚ) : ℚ :=
  s.map_mmHg * 0.7 + derivedMap ops (tempState ops s p ft rate_hr dt) p * 0.3

/-- Litres infused during the step (`step_infusion_l`, line 980). -/
def stepInfusionL (rate_hr dt : ℚ) : ℚ := rateMin rate_hr * dt / 1000

/-- New hemoglobin: conserved mass plus the 22 g/dL PRBC influx, divided by
the new blood volume, clamped to [2, 26] (lines 987-1002). -/
def newHemoglobin (ops : TranscendOps) (s : SimulationState) (p : PhysiologicalParams)
    (ft : FluidType) (rate_hr dt : ℚ) : ℚ :=
  let current_hb_mass_g := s.current_hemoglobin * s.v_blood_current_l * 10
  let hb_conc_in_fluid : ℚ := if ft = FluidType.PRBC then 22 else 0
  let hb_influx_g := hb_conc_in_fluid * stepInfusionL rate_hr dt * 10
  max 2 (min ((current_hb_mass_g + hb_influx_g) / (newVBlood ops s p ft rate_hr dt * 10)) 26)

/-- New hematocrit `new_hematocrit = new_hemoglobin * 3` (line 1003). -/
def newHematocrit (ops : TranscendOps) (s : SimulationState) (p : PhysiologicalParams)
    (ft : FluidType) (rate_hr dt : ℚ) : ℚ :=
  newHemoglobin ops s p ft rate_hr dt * 3

/-- Urine sodium concentration tuning (lines 1017-1032). -/
def urineNaConc (s : SimulationState) (p : PhysiologicalParams) : ℚ :=
  let c : ℚ :=
    if 145 < s.current_sodium then 100
    else if s.current_sodium < 130 then 10
    else 60
  if p.is_sam then min c 20
  else if p.reflection_coefficient_sigma < 0.6 then max c 80
  else c

/-- New plasma sodium over the ECF, clamped to [110, 180] (lines 1007-1039). -/
def newSodium (ops : TranscendOps) (s : SimulationState) (p : PhysiologicalParams)
    (ft : FluidType) (rate_hr dt : ℚ) : ℚ :=
  let fl := fluidLibraryGet ft
  let current_na_mass := s.current_sodium * (s.v_blood_current_l + s.v_interstitial_current_l)
  let na_influx := fl.sodium_meq_l * stepInfusionL rate_hr dt
  let na_efflux := qUrine ops s p / 1000 * dt * urineNaConc s p
  max 110 (min ((current_na_mass + na_influx - na_efflux) /
    (newVBlood ops s p ft rate_hr dt + newVInter ops s p ft rate_hr dt)) 180)

/-- New potassium with the urine efflux at 40 mEq/L and the leaky-state
intracellular shift, clamped to [1.5, 9] (lines 1046-1062). -/
def newPotassium (ops : TranscendOps) (s : SimulationState) (p : PhysiologicalParams)
    (ft : FluidType) (rate_hr dt : ℚ) : ℚ :=
  let fl := fluidLibraryGet ft
  let current_k_mass := s.current_potassium * (s.v_blood_current_l + s.v_interstitial_current_l)
  let k_influx := fl.potassium_meq_l * stepInfusionL rate_hr dt
  let k_efflux := qUrine ops s p / 1000 * dt * 40
  let k_shift_loss : ℚ := if p.reflection_coefficient_sigma < 0.6 then 0.005 * dt else 0
  max 1.5 (min ((current_k_mass + k_influx - k_efflux - k_shift_loss) /
    (newVBlood ops s p ft rate_hr dt + newVInter ops s p ft rate_hr dt)) 9)

/-- Metabolic burn rate with stress and SAM modifiers (lines 1075-1079). -/
def glucoseBurnRate (p : PhysiologicalParams) : ℚ :=
  let b := p.glucose_utilization_mg_kg_min
  let b := if p.reflection_coefficient_sigma < 0.6 then b * 1.5 else b
  if p.is_sam then b * 0.7 else b

/-- New glucose over the ECF in dL, clamped to [10, 800] (lines 1068-1087). -/
def newGlucose (ops : TranscendOps) (s : SimulationState) (p : PhysiologicalParams)
    (ft : FluidType) (rate_hr dt : ℚ) : ℚ :=
  let fl := fluidLibraryGet ft
  let current_ecf_dl := (s.v_blood_current_l + s.v_interstitial_current_l) * 10
  let current_gluc_mass_mg := s.current_glucose_mg_dl * current_ecf_dl
  let gluc_influx_mg := fl.glucose_g_l * 1000 * stepInfusionL rate_hr dt
  let gluc_consumption_mg := p.weight_kg * glucoseBurnRate p * dt
  let new_ecf_dl := (newVBlood ops s p ft rate_hr dt + newVInter ops s p ft rate_hr dt) * 10
  max 10 (min ((current_gluc_mass_mg + gluc_influx_mg - gluc_consumption_mg) / new_ecf_dl) 800)

/-- New lactate before the final clamp: perfusion-scaled clearance (0.02 in
leaky states) plus shock production below 35 mmHg perfusion (lines 1091-1097). -/
def newLactate (ops : TranscendOps) (s : SimulationState) (p : PhysiologicalParams)
    (ft : FluidType) (rate_hr dt : ℚ) : ℚ :=
  let perfusion_p := newMap ops s p ft rate_hr dt - newCvp ops s p ft rate_hr dt
  let clearance_k : ℚ :=
    if p.reflection_coefficient_sigma < 0.6 then 0.02 else 0.08 * (perfusion_p / 65)
  let l := s.current_lactate_mmol_l * (1 - clearance_k * dt)
  if perfusion_p < 35 then l + 0.15 * dt else l

/-- One simulator step, from `simulate_single_step` (lines 914-1147): pure
functional update of every field listed in the source `replace` call. -/
def simulate_single_step (ops : TranscendOps) (s : SimulationState)
    (p : PhysiologicalParams) (rate_hr : ℚ) (ft : FluidType) (dt : ℚ) : SimulationState :=
  { s with
    time_minutes := s.time_minutes + dt
    v_blood_current_l := newVBlood ops s p ft rate_hr dt
    v_interstitial_current_l := newVInter ops s p ft rate_hr dt
    v_intracellular_current_l := newVIcf s p ft rate_hr dt
    map_mmHg := newMap ops s p ft rate_hr dt
    cvp_mmHg := newCvp ops s p ft rate_hr dt
    p_interstitial_mmHg := newPInter ops s p ft rate_hr dt
    pcwp_mmHg := newCvp ops s p ft rate_hr dt * 1.2
    q_infusion_ml_min := rateMin rate_hr
    q_leak_ml_min := qLeak ops s p (fluidLibraryGet ft)
    q_urine_ml_min := qUrine ops s p
    q_lymph_ml_min := qLymph s p
    q_osmotic_shift_ml_min := qOsmotic s p (fluidLibraryGet ft) (rateMin rate_hr)
    current_glucose_mg_dl := newGlucose ops s p ft rate_hr dt
    current_sodium := newSodium ops s p ft rate_hr dt
    current_hemoglobin := newHemoglobin ops s p ft rate_hr dt
    current_hematocrit_dynamic := newHematocrit ops s p ft rate_hr dt
    current_potassium := newPotassium ops s p ft rate_hr dt
    current_lactate_mmol_l := max 0.1 (min (newLactate ops s p ft rate_hr dt) 25)
    total_volume_infused_ml := s.total_volume_infused_ml + rateMin rate_hr * dt
    total_sodium_load_meq := s.total_sodium_load_meq +
      rateMin rate_hr / 1000 * (fluidLibraryGet ft).sodium_meq_l * dt
    current_weight_dynamic_kg := s.current_weight_dynamic_kg +
      (dvBloodMl ops s p ft rate_hr dt + dvInterMl ops s p ft rate_hr dt +
        dvIcfMl s p ft rate_hr dt) / 1000
    cumulative_bolus_count := s.cumulative_bolus_count
    time_since_last_bolus_min :=
      if 0.1 < rateMin rate_hr * dt then 0 else s.time_since_last_bolus_min + dt }


/-! Compartment and hemodynamics calculator, from the static helpers of
`PediaFlowPhysicsEngine` (`core_physics.py` lines 39-235). -/

/-- Body-surface area (`_calculate_bsa`, lines 40-50): Mosteller when height
is known, else the weight-based approximation. -/
def calcBsa (ops : TranscendOps) (weight_kg : ℚ) (height_cm : Option ℚ) : ℚ :=
  if weight_kg ≤ 0 then 0.1
  else
    match height_cm with
    | some h => if 0 < h then ops.powR (weight_kg * h / 3600) 0.5 else (4 * weight_kg + 7) / (weight_kg + 90)
    | none => (4 * weight_kg + 7) / (weight_kg + 90)

/-- Result of `_calculate_compartment_volumes`. -/
structure CompartmentVols where
  tbw_fraction : ℚ
  v_blood : ℚ
  v_interstitial : ℚ
  v_intracellular : ℚ
  icf_ratio : ℚ

/-- Compartment sizes (`_calculate_compartment_volumes`, lines 52-96):
age-banded TBW and ECF ratios, the SAM +0.05 shift, the 0.3 ICF floor and the
1:3 blood/interstitial split of the ECF. -/
def calcCompartmentVolumes (inp : PatientInput) : CompartmentVols :=
  let tbw_ratio : ℚ := if inp.age_months < 1 then 0.80 else if inp.age_months < 12 then 0.70 else 0.60
  let ecf_ratio : ℚ := if inp.age_months < 1 then 0.45 else if inp.age_months < 12 then 0.30 else 0.25
  let tbw_ratio := if inp.muac_cm < 11.5 then tbw_ratio + 0.05 else tbw_ratio
  let ecf_ratio := if inp.muac_cm < 11.5 then ecf_ratio + 0.05 else ecf_ratio
  let icf_ratio := max (tbw_ratio - ecf_ratio) 0.3
  let v_intracellular := inp.weight_kg * icf_ratio
  let ecf_total := inp.weight_kg * ecf_ratio
  { tbw_fraction := tbw_ratio
    v_blood := ecf_total * 0.25
    v_interstitial := ecf_total * (1 - 0.25)
    v_intracellular := v_intracellular
    icf_ratio := icf_ratio }

/-- Diagnosis-dependent fluid-deficit fraction, shared between
`_calculate_hemodynamics` (lines 155-159) and the calibrator (lines 441-445). -/
def deficitFactor (inp : PatientInput) : ℚ :=
  if inp.diagnosis = ClinicalDiagnosis.SEVERE_DEHYDRATION then
    (if 4 < inp.capillary_refill_sec then 0.15 else 0.10)
  else if inp.diagnosis = ClinicalDiagnosis.SAM_DEHYDRATION then 0.08
  else 0

/-- Result of `_calculate_hemodynamics`. -/
structure Hemodynamics where
  contractility : ℚ
  svr : ℚ
  viscosity : ℚ

/-- Pump strength, viscosity and baseline SVR (`_calculate_hemodynamics`,
lines 98-174): SAM and septic contractility penalties, the piecewise
viscosity clamped to [0.8, 3], age-banded SVR with size and temperature
correction, and the compensated-shock contractility boost. -/
def calcHemodynamics (ops : TranscendOps) (inp : PatientInput) : Hemodynamics :=
  let is_sam := inp.diagnosis = ClinicalDiagnosis.SAM_DEHYDRATION ∨ inp.muac_cm < 11.5
  let contractility : ℚ := if is_sam then 1 * 0.9 else 1
  let contractility :=
    if inp.diagnosis = ClinicalDiagnosis.SEPTIC_SHOCK then contractility * 0.7 else contractility
  let viscosity : ℚ :=
    if inp.hematocrit_pct < 20 then 1.5 + 0.05 * inp.hematocrit_pct
    else ops.powR (inp.hematocrit_pct / 45) 2.5
  let viscosity := max 0.8 (min viscosity 3)
  let base_svr : ℚ := if inp.age_months < 1 then 1800 else if inp.age_months < 12 then 1400 else 1000
  let base_svr := base_svr * ops.powR (10 / inp.weight_kg) 0.5
  let temp_factor : ℚ :=
    if inp.temp_celsius < 36 then 1.5 else if 38.5 < inp.temp_celsius then 0.8 else 1
  let svr := base_svr * viscosity * temp_factor
  let contractility :=
    if 0 < deficitFactor inp then
      contractility * (if is_sam then 1.05 else if 0.10 ≤ deficitFactor inp then 1.4 else 1.2)
    else contractility
  { contractility := contractility, svr := svr, viscosity := viscosity }

/-- Respiratory-rate safety stop limit (`_calculate_safe_rr_limit`,
lines 176-193); `int` truncation is `Int.floor` on these positive values. -/
def calcSafeRrLimit (age_months baseline_rr : ℚ) : ℤ :=
  let severe_limit : ℚ :=
    if age_months < 2 then 60 else if age_months < 12 then 50
    else if age_months < 60 then 40 else 30
  if severe_limit < baseline_rr then ⌊baseline_rr * 1.15⌋ else ⌊severe_limit⌋ + 10

/-- Renal maturity factor (`_calculate_renal_function`, lines 195-216). -/
def calcRenalFunction (age_months time_since_urine : ℚ) : ℚ :=
  let maturity := if 24 ≤ age_months then 1 else min (0.3 + 0.029 * age_months) 1
  if 6 < time_since_urine then maturity * 0.1
  else if 4 < time_since_urine then maturity * 0.5
  else maturity

/-- Insensible loss in ml/min (`_calculate_insensible_loss`, lines 218-235). -/
def calcInsensibleLoss (ops : TranscendOps) (inp : PatientInput) : ℚ :=
  let daily := 400 * calcBsa ops inp.weight_kg inp.height_cm
  let daily := if 38 < inp.temp_celsius then daily * (1 + 0.12 * (inp.temp_celsius - 38)) else daily
  let daily := if 50 < inp.respiratory_rate_bpm then daily * 1.10 else daily
  daily / 1440

/-! Parameter calibrator, from `initialize_physics_engine` (`core_physics.py`
lines 316-570).  The name avoids the reserved prefix of the source name; the
doc comments cite the source lines. -/

/-- Contractility actually stored and used by the calibrator: the
hemodynamics value with the platelet bleed limiter applied (lines 370-372);
a missing or zero platelet count is falsy in the source. -/
def engineContractility (ops : TranscendOps) (inp : PatientInput) : ℚ :=
  let c := (calcHemodynamics ops inp).contractility
  match inp.platelet_count with
  | some pc => if pc ≠ 0 ∧ pc < 20000 then c * 0.5 else c
  | none => c

/-- Reflection coefficient by diagnosis and dengue illness day (lines 329-343). -/
def calibSigma (inp : PatientInput) : ℚ :=
  if inp.diagnosis = ClinicalDiagnosis.SEPTIC_SHOCK then 0.35
  else if inp.diagnosis = ClinicalDiagnosis.DENGUE_SHOCK then
    (match inp.illness_day with
     | some d => if d ≤ 3 then 0.9 else if d ≤ 6 then 0.3 else 0.7
     | none => 0.9)
  else 0.9

/-- Capillary filtration coefficient by diagnosis and illness day
(lines 329-343). -/
def calibKf (inp : PatientInput) : ℚ :=
  if inp.diagnosis = ClinicalDiagnosis.SEPTIC_SHOCK then 0.035
  else if inp.diagnosis = ClinicalDiagnosis.DENGUE_SHOCK then
    (match inp.illness_day with
     | some d => if d ≤ 3 then 0.01 else if d ≤ 6 then 0.025 else 0.01
     | none => 0.01)
  else 0.01

/-- Measured or MUAC-estimated albumin with the septic correction
(lines 346-355). -/
def calibAlbumin (inp : PatientInput) : ℚ :=
  match inp.plasma_albumin_g_dl with
  | some a => a
  | none =>
    let a : ℚ :=
      if inp.muac_cm < 11.5 then 2.5
      else if 12.5 < inp.muac_cm then 4
      else 2.5 + (inp.muac_cm - 11.5) * 1.5
    if inp.diagnosis = ClinicalDiagnosis.SEPTIC_SHOCK then min (a * 0.85) 3.5 else a

/-- Plasma oncotic pressure polynomial (line 358). -/
def calibPiPlasma (inp : PatientInput) : ℚ :=
  let a := calibAlbumin inp
  2.1 * a + 0.16 * a ^ 2 + 0.009 * a ^ 3

/-- Glucose burn rate by age and septic stress (lines 360-368). -/
def calibGlucoseBurn (inp : PatientInput) : ℚ :=
  let b : ℚ := if 12 < inp.age_months then 0.12 else 0.15
  if inp.diagnosis = ClinicalDiagnosis.SEPTIC_SHOCK then b * 1.5 else b

/-- Pre-solver afterload sensitivity: 0.5 for SAM or hypothermia, else 0.2
(lines 416-421). -/
def afterloadSens (inp : PatientInput) : ℚ :=
  if inp.muac_cm < 11.5 ∨ inp.temp_celsius < 36 then 0.5 else 0.2

/-- Baseline capillary pressure from capillary refill (lines 423-431). -/
def calibBasePc (inp : PatientInput) : ℚ :=
  if 4 < inp.capillary_refill_sec then 15
  else if 2 < inp.capillary_refill_sec then 20
  else 25

/-- Optimal preload in ml, reduced under hepatomegaly (lines 433-437). -/
def optPreload (inp : PatientInput) : ℚ :=
  let o := (calcCompartmentVolumes inp).v_blood * 1000 * 1.15
  if inp.baseline_hepatomegaly then o * 0.85 else o

/-- Estimated blood volume at T=0 used by the SVR solver (lines 441-448). -/
def estStartVolume (inp : PatientInput) : ℚ :=
  (calcCompartmentVolumes inp).v_blood - inp.weight_kg * deficitFactor inp * 0.25

/-- Observed MAP, the solver ground truth: `DBP + (SBP-DBP)/3`, or
`0.65 * SBP` without a diastolic reading (lines 451-454, duplicated at
lines 594-598 of the initializer). -/
def observedMap (inp : PatientInput) : ℚ :=
  match inp.diastolic_bp with
  | some d => d + (inp.systolic_bp - d) / 3
  | none => inp.systolic_bp * 0.65

/-- The calibrator's own inline Frank-Starling curve evaluated at the
estimated starting volume (lines 457-466): no sympathetic boost, plateau
only to 1.2, failure slope 1.5 floored at 0.4. -/
def calibPreloadEfficiency (inp : PatientInput) : ℚ :=
  let r := estStartVolume inp * 1000 / optPreload inp
  if r ≤ 1 then r
  else if r ≤ 1.2 then 1
  else max 0.4 (1 - (r - 1.2) * 1.5)

/-- Base cardiac output fed to the SVR solver (lines 468-470). -/
def calibBaseCo (ops : TranscendOps) (inp : PatientInput) : ℚ :=
  inp.weight_kg * 0.15 * engineContractility ops inp * calibPreloadEfficiency inp

/-- CVP assumed by the solver (lines 474-502): 2 with a deficit else 5,
raised to at least 16 under wet lungs (hypoxia, or extreme tachypnea outside
the dry-lung diagnoses) and to at least 8 under hepatomegaly alone. -/
def assumedCvp (inp : PatientInput) : ℚ :=
  let base : ℚ := if 0 < deficitFactor inp then 2 else 5
  let rr_limit : ℚ := if inp.age_months < 2 then 60 else if inp.age_months < 12 then 50 else 40
  let is_hypoxic : Bool :=
    if inp.diagnosis = ClinicalDiagnosis.SEPTIC_SHOCK then decide (inp.sp_o2_percent < 85)
    else decide (inp.sp_o2_percent < 90)
  let is_dry_lung : Bool :=
    decide (inp.diagnosis = ClinicalDiagnosis.SEVERE_DEHYDRATION ∨
      inp.diagnosis = ClinicalDiagnosis.SAM_DEHYDRATION ∨
      inp.diagnosis = ClinicalDiagnosis.SEPTIC_SHOCK ∨
      inp.diagnosis = ClinicalDiagnosis.DENGUE_SHOCK)
  let is_extreme_tachypnea : Bool := decide (rr_limit * 1.4 < inp.respiratory_rate_bpm)
  let has_wet_lungs := is_hypoxic || (is_extreme_tachypnea && !is_dry_lung)
  if has_wet_lungs then max base 16
  else if inp.baseline_hepatomegaly then max base 8
  else base

/-- One damped iteration of the fixed-point SVR solver (lines 506-518):
afterload from the current guess (denominator floored at 0.1, factor floored
at 0.3), effective CO floored at 0.01, `SVR = (MAP - CVP) * 80 / CO`, then
midpoint damping. -/
def svrIterStep (map_obs cvp_assumed sens base_co svr : ℚ) : ℚ :=
  let afterload_factor := max 0.3 (1 / max 0.1 (1 + (svr / 1000 - 1) * sens))
  let safe_co := max 0.01 (base_co * afterload_factor)
  (svr + (map_obs - cvp_assumed) * 80 / safe_co) / 2

/-- Exactly n applications of an iteration body (`for _ in range(n)`). -/
def iterateN (f : ℚ → ℚ) : ℕ → ℚ → ℚ
  | 0, x => x
  | n + 1, x => iterateN f n (f x)

/-- The solver output before the final clamp: 15 damped iterations from the
baseline-SVR initial guess (lines 473, 506-518). -/
def calibSolvedSvr (ops : TranscendOps) (inp : PatientInput) : ℚ :=
  iterateN
    (svrIterStep (observedMap inp) (assumedCvp inp) (afterloadSens inp) (calibBaseCo ops inp))
    15 (calcHemodynamics ops inp).svr

/-- Final calibrated SVR, clamped to [200, 20000] (line 520). -/
def calibFinalSvr (ops : TranscendOps) (inp : PatientInput) : ℚ :=
  max 200 (min (calibSolvedSvr ops inp) 20000)

/-- The parameter calibrator `initialize_physics_engine` (lines 316-570),
assembling the per-patient `PhysiologicalParams`.  Warnings are pure
bookkeeping in the source and are not modelled. -/
def mkParams (ops : TranscendOps) (inp : PatientInput) : PhysiologicalParams :=
  let vols := calcCompartmentVolumes inp
  let is_sam := decide (inp.muac_cm < 11.5)
  let final_svr := calibFinalSvr ops inp
  { tbw_fraction := vols.tbw_fraction
    v_blood_normal_l := vols.v_blood
    v_inter_normal_l := vols.v_interstitial
    cardiac_contractility := engineContractility ops inp
    heart_stiffness_k := 4
    svr_resistance := final_svr
    capillary_filtration_k := calibKf inp
    blood_viscosity_eta := (calcHemodynamics ops inp).viscosity
    tissue_compliance_factor := if is_sam then 0.3 else 1
    renal_maturity_factor := calcRenalFunction inp.age_months inp.time_since_last_urine_hours
    max_cardiac_output_l_min := inp.weight_kg * 0.15
    venous_compliance_ml_mmhg := inp.weight_kg * 1.5
    osmotic_conductance_k := 0.5
    lymphatic_drainage_capacity_ml_min := inp.weight_kg * 0.03
    intracellular_sodium_bias := if is_sam then 1.2 else 1
    target_map_mmhg := if inp.age_months < 12 then 55 else 65
    target_heart_rate_upper_limit :=
      min ((if 12 < inp.age_months then 160 else 180) +
        (if 37.5 < inp.temp_celsius then ⌊(inp.temp_celsius - 37.5) * 15⌋ else 0)) 220
    target_respiratory_rate_limit := calcSafeRrLimit inp.age_months inp.respiratory_rate_bpm
    insensible_loss_ml_min := calcInsensibleLoss ops inp
    plasma_oncotic_pressure_mmhg := calibPiPlasma inp
    reflection_coefficient_sigma := calibSigma inp
    glucose_utilization_mg_kg_min := calibGlucoseBurn inp
    afterload_sensitivity :=
      if 3000 < final_svr then afterloadSens inp * 0.5 else afterloadSens inp
    baseline_capillary_pressure_mmhg := calibBasePc inp
    optimal_preload_ml := optPreload inp
    weight_kg := inp.weight_kg
    interstitial_compliance_ml_mmhg :=
      if inp.diagnosis = ClinicalDiagnosis.SEPTIC_SHOCK ∧ inp.sp_o2_percent < 90 then 40
      else if is_sam then 30 else 100
    target_cvp_mmhg := assumedCvp inp
    albumin_uncertainty_g_dl := match inp.plasma_albumin_g_dl with | some _ => 0 | none => 0.8
    is_sam := is_sam
    final_starting_blood_volume_l := estStartVolume inp
    capillary_recruitment_base := if is_sam then 0.7 else 1 }

/-! State initializer, from `initialize_simulation_state` (`core_physics.py`
lines 572-702). -/

/-- Estimated cardiac output used to back-calculate the starting CVP
(lines 602-606): 75% of peak pump output, 1.2x hyperdynamic in sepsis. -/
def initCoEst (inp : PatientInput) (p : PhysiologicalParams) : ℚ :=
  let co := p.max_cardiac_output_l_min * p.cardiac_contractility * 0.75
  if inp.diagnosis = ClinicalDiagnosis.SEPTIC_SHOCK then co * 1.2 else co

/-- Starting CVP of the initializer (lines 608-618): back-calculated from
the observed MAP and the calibrated SVR, clamped to [1, 18], and forced to
at least 10 under hepatomegaly. -/
def initStartCvp (inp : PatientInput) (p : PhysiologicalParams) : ℚ :=
  let estimated_cvp := observedMap inp - initCoEst inp p * p.svr_resistance / 80
  let start_cvp := max 1 (min estimated_cvp 18)
  if inp.baseline_hepatomegaly then max start_cvp 10 else start_cvp

/-- Starting blood volume of the initializer (lines 620-626): back-calculated
from the starting CVP through the venous compliance, floored at 35% of the
normal blood volume. -/
def initVBlood (inp : PatientInput) (p : PhysiologicalParams) : ℚ :=
  max (p.v_blood_normal_l + (initStartCvp inp p - 3) * p.venous_compliance_ml_mmhg / 1000)
    (p.v_blood_normal_l * 0.35)

/-- Interstitial volume at T=0 (lines 582-592 and 628-638): baseline edema
for SAM and sepsis, plus the congestion equilibrium volume when the starting
CVP exceeds 8. -/
def initVInter (inp : PatientInput) (p : PhysiologicalParams) : ℚ :=
  let v := p.v_inter_normal_l
  let baseline_edema_ml : ℚ :=
    if inp.diagnosis = ClinicalDiagnosis.SAM_DEHYDRATION then inp.weight_kg * 15
    else if inp.diagnosis = ClinicalDiagnosis.SEPTIC_SHOCK then inp.weight_kg * 5
    else 0
  let v := if 0 < baseline_edema_ml then v + baseline_edema_ml / 1000 else v
  let start_cvp := initStartCvp inp p
  if 8 < start_cvp then
    (let equilibrium_p_inter := (start_cvp - 8) * 0.5
     if 0 < equilibrium_p_inter then
       v + equilibrium_p_inter * p.interstitial_compliance_ml_mmhg / 1000
     else v)
  else v

/-- The state initializer `initialize_simulation_state` (lines 572-702). -/
def mkInitState (inp : PatientInput) (p : PhysiologicalParams) :
    SimulationState :=
  let vols := calcCompartmentVolumes inp
  let current_v_inter := initVInter inp p
  let start_cvp := initStartCvp inp p
  let current_v_blood := initVBlood inp p
  let start_p_inter :=
    max (-2) ((current_v_inter - p.v_inter_normal_l) * 1000 / p.interstitial_compliance_ml_mmhg)
  let start_glucose : ℚ :=
    if inp.current_glucose ≠ 0 then inp.current_glucose
    else if inp.diagnosis = ClinicalDiagnosis.SEPTIC_SHOCK then 65
    else 90
  let start_sodium : ℚ :=
    if inp.current_sodium ≠ 0 then inp.current_sodium
    else if p.is_sam then 132
    else 140
  let crt_lactate : ℚ :=
    if 4 < inp.capillary_refill_sec then 6
    else if 2 < inp.capillary_refill_sec then 3.5
    else 2
  let start_lactate : ℚ :=
    match inp.lactate_mmol_l with
    | some l => if l ≠ 0 then l else crt_lactate
    | none => crt_lactate
  { time_minutes := 0
    v_blood_current_l := current_v_blood
    v_interstitial_current_l := max current_v_inter 0.1
    v_intracellular_current_l := vols.v_intracellular
    cvp_mmHg := start_cvp
    p_interstitial_mmHg := start_p_inter
    map_mmHg := observedMap inp
    pcwp_mmHg := start_cvp * 1.25
    q_infusion_ml_min := 0
    q_leak_ml_min := 0
    q_urine_ml_min := 0
    q_lymph_ml_min := 0
    q_osmotic_shift_ml_min := 0
    total_volume_infused_ml := 0
    total_sodium_load_meq := 0
    current_hematocrit_dynamic := inp.hematocrit_pct
    current_weight_dynamic_kg := inp.weight_kg
    q_ongoing_loss_ml_min := inp.weight_kg * inp.ongoing_losses_severity.val / 60
    q_insensible_loss_ml_min := p.insensible_loss_ml_min
    current_glucose_mg_dl := start_glucose
    cumulative_bolus_count := 0
    time_since_last_bolus_min := 999
    current_sodium := start_sodium
    current_hemoglobin := if inp.hemoglobin_g_dl ≠ 0 then inp.hemoglobin_g_dl else 11
    current_potassium := if p.is_sam then 3.8 else 4.2
    current_lactate_mmol_l := start_lactate
    is_sam := p.is_sam
    capillary_recruitment_base := p.capillary_recruitment_base
    final_starting_blood_volume_l := current_v_blood }

/-! Safety supervisor, from `safety.SafetySupervisor.check_real_time`
(`safety.py` lines 9-102). -/

/-- Boolean risk flag set, from `models.SafetyAlerts`. -/
structure SafetyAlerts where
  risk_pulmonary_edema : Bool
  risk_volume_overload : Bool
  risk_cerebral_edema : Bool
  risk_hypoglycemia : Bool
  hydrocortisone_needed : Bool
  risk_ketoacidosis : Bool
  sam_heart_warning : Bool
  anemia_dilution_warning : Bool
  dengue_leak_warning : Bool

/-- Stateless real-time classifier `check_real_time` (`safety.py`
lines 9-102). -/
def check_real_time (s : SimulationState) (p : PhysiologicalParams)
    (inp : PatientInput) : SafetyAlerts :=
  let cerebral : Bool :=
    if 0 < s.total_volume_infused_ml then
      let fluid_na_conc := s.total_sodium_load_meq * 1000 / s.total_volume_infused_ml
      decide ((145 < inp.current_sodium ∧ fluid_na_conc < 130) ∨
        fluid_na_conc < inp.current_sodium - 15)
    else false
  { risk_pulmonary_edema := decide (5 < s.p_interstitial_mmHg)
    risk_volume_overload := decide (inp.weight_kg * 40 < s.total_volume_infused_ml)
    risk_cerebral_edema := cerebral
    risk_hypoglycemia := decide (s.current_glucose_mg_dl < 54)
    hydrocortisone_needed :=
      match inp.lactate_mmol_l with
      | some l => decide (7 < l)
      | none => false
    risk_ketoacidosis :=
      (decide (inp.current_glucose ≠ 0 ∧ 250 < inp.current_glucose)) ||
      (match inp.lactate_mmol_l with
       | some l => decide (5 < l ∧ 180 < s.current_glucose_mg_dl)
       | none => false)
    sam_heart_warning :=
      decide (p.cardiac_contractility < 0.6 ∨ inp.muac_cm < 11.5 ∨
        inp.diagnosis = ClinicalDiagnosis.SAM_DEHYDRATION)
    anemia_dilution_warning := decide (4 < inp.hemoglobin_g_dl ∧ inp.hemoglobin_g_dl < 7)
    dengue_leak_warning :=
      decide (inp.diagnosis = ClinicalDiagnosis.DENGUE_SHOCK ∧
        (inp.hematocrit_pct < s.current_hematocrit_dynamic ∨ 0.1 < s.q_leak_ml_min)) }

/-! Predictive driver, from `run_simulation` (`core_physics.py`
lines 1149-1259).  Triggers are modelled as tags; the trajectory payload is
the list of stepped states. -/

/-- Trigger tags emitted by the driver, in the source wording order. -/
inductive RunTrigger
  | congestionStop
  | edemaStop
  | volumeWarn
  | hemodilutionStop
  | reassessWarn
deriving DecidableEq, Repr

/-- Accumulated output of the simulation loop. -/
structure LoopOut where
  final : SimulationState
  aborted : Bool
  triggers : List RunTrigger
  stepped : List SimulationState

/-- The minute loop of `run_simulation` (lines 1200-1250): step, abort on
interstitial pressure above 5, warn on the 80%-blood-volume total, abort on
hematocrit under 20, and the once-only 10 ml/kg reassessment trigger. -/
def runLoop (ops : TranscendOps) (p : PhysiologicalParams) (ft : FluidType)
    (rate_ml_hr : ℚ) : ℕ → SimulationState → LoopOut
  | 0, s => ⟨s, false, [], []⟩
  | n + 1, s =>
    let s1 := simulate_single_step ops s p rate_ml_hr ft 1
    if 5 < s1.p_interstitial_mmHg then ⟨s1, true, [RunTrigger.edemaStop], [s1]⟩
    else
      let warn1 : List RunTrigger :=
        if p.v_blood_normal_l * 1000 * 0.8 < s1.total_volume_infused_ml then
          [RunTrigger.volumeWarn]
        else []
      if s1.current_hematocrit_dynamic < 20 then
        ⟨s1, true, warn1 ++ [RunTrigger.hemodilutionStop], [s1]⟩
      else if p.weight_kg * 10 ≤ s1.total_volume_infused_ml ∧ s1.cumulative_bolus_count = 0 then
        let out := runLoop ops p ft rate_ml_hr n { s1 with cumulative_bolus_count := 1 }
        ⟨out.final, out.aborted, warn1 ++ RunTrigger.reassessWarn :: out.triggers, s1 :: out.stepped⟩
      else
        let out := runLoop ops p ft rate_ml_hr n s1
        ⟨out.final, out.aborted, warn1 ++ out.triggers, s1 :: out.stepped⟩

/-- Result of one predictive run. -/
structure RunResult where
  final_state : SimulationState
  success : Bool
  triggers : List RunTrigger
  stepped : List SimulationState

/-- The predictive driver `run_simulation` (lines 1149-1259): the pre-run
congestion guard returns the initial state untouched; otherwise the minute
loop runs at rate `volume / duration * 60` and success is the negation of
the abort flag. -/
def run_simulation (ops : TranscendOps) (init : SimulationState)
    (p : PhysiologicalParams) (ft : FluidType) (volume_ml : ℚ) (duration_min : ℕ) :
    RunResult :=
  if 4 ≤ init.p_interstitial_mmHg then
    ⟨init, false, [RunTrigger.congestionStop], []⟩
  else
    let out := runLoop ops p ft (volume_ml / (duration_min : ℚ) * 60) duration_min init
    ⟨out.final, !out.aborted, out.triggers, out.stepped⟩


/-! Specification-side definitions and predicates used by the claims. -/

/-- Decidability of the input validation, for concrete evaluation. -/
instance (inp : PatientInput) : Decidable inp.Valid := by
  unfold PatientInput.Valid
  infer_instance

/-- The section-3 state invariants of the specification, relative to the
calibrated normal blood volume. -/
def StateInvariants (p : PhysiologicalParams) (s : SimulationState) : Prop :=
  p.v_blood_normal_l * 0.4 ≤ s.v_blood_current_l ∧
  0.1 ≤ s.v_interstitial_current_l ∧
  0.1 ≤ s.v_intracellular_current_l ∧
  30 ≤ s.map_mmHg ∧ s.map_mmHg ≤ 160 ∧
  1 ≤ s.cvp_mmHg ∧ s.cvp_mmHg ≤ 25 ∧
  -2 ≤ s.p_interstitial_mmHg ∧
  110 ≤ s.current_sodium ∧ s.current_sodium ≤ 180 ∧
  1.5 ≤ s.current_potassium ∧ s.current_potassium ≤ 9 ∧
  10 ≤ s.current_glucose_mg_dl ∧ s.current_glucose_mg_dl ≤ 800 ∧
  5 ≤ s.current_hematocrit_dynamic ∧ s.current_hematocrit_dynamic ≤ 70 ∧
  0.1 ≤ s.current_lactate_mmol_l ∧ s.current_lactate_mmol_l ≤ 25

instance (p : PhysiologicalParams) (s : SimulationState) : Decidable (StateInvariants p s) := by
  unfold StateInvariants
  infer_instance

/-- The section-3 invariants as the stepper actually maintains them: the
hematocrit ceiling is 78 (three times the hemoglobin clamp ceiling of
26 g/dL), not 70. -/
def StateInvariantsHct78 (p : PhysiologicalParams) (s : SimulationState) : Prop :=
  p.v_blood_normal_l * 0.4 ≤ s.v_blood_current_l ∧
  0.1 ≤ s.v_interstitial_current_l ∧
  0.1 ≤ s.v_intracellular_current_l ∧
  30 ≤ s.map_mmHg ∧ s.map_mmHg ≤ 160 ∧
  1 ≤ s.cvp_mmHg ∧ s.cvp_mmHg ≤ 25 ∧
  -2 ≤ s.p_interstitial_mmHg ∧
  110 ≤ s.current_sodium ∧ s.current_sodium ≤ 180 ∧
  1.5 ≤ s.current_potassium ∧ s.current_potassium ≤ 9 ∧
  10 ≤ s.current_glucose_mg_dl ∧ s.current_glucose_mg_dl ≤ 800 ∧
  5 ≤ s.current_hematocrit_dynamic ∧ s.current_hematocrit_dynamic ≤ 78 ∧
  0.1 ≤ s.current_lactate_mmol_l ∧ s.current_lactate_mmol_l ≤ 25

instance (p : PhysiologicalParams) (s : SimulationState) :
    Decidable (StateInvariantsHct78 p s) := by
  unfold StateInvariantsHct78
  infer_instance

/-- The non-literal division denominators of one `_calculate_derivatives`
evaluation, in source order (denominators that are integer literals in the
source are omitted): the preload floor, the two afterload denominators, the
CVP-refill denominator, the implied-SVR denominator, the capillary-pressure
scaling by the target MAP, the oncotic dilution by the current blood volume,
the urine sigmoid denominator on its branch, and the guarded osmotic ECF
denominator. -/
def derivDenomsOK (ops : TranscendOps) (s : SimulationState) (p : PhysiologicalParams)
    (rate : ℚ) : Prop :=
  max p.optimal_preload_ml 10 ≠ 0 ∧
  max 0.1 (1 + (p.svr_resistance / 1000 - 1) * p.afterload_sensitivity) ≠ 0 ∧
  max 0.1 s.cvp_mmHg ≠ 0 ∧
  trueCoEst s p ≠ 0 ∧
  max 0.1 (1 + (svrDynamic ops s p / 1000 - 1) * p.afterload_sensitivity) ≠ 0 ∧
  p.target_map_mmhg ≠ 0 ∧
  s.v_blood_current_l ≠ 0 ∧
  ((30 ≤ derivedMap ops s p - s.cvp_mmHg ∧ derivedMap ops s p - s.cvp_mmHg < 60) →
    1 + ops.expR (-(derivedMap ops s p - s.cvp_mmHg - 45) / 5) ≠ 0) ∧
  ((0 < rate ∧ 0 < s.v_blood_current_l + s.v_interstitial_current_l) →
    s.v_blood_current_l + s.v_interstitial_current_l ≠ 0)

/-- The non-literal division denominators of one whole `simulate_single_step`
call: both derivative evaluations plus the compliance, hemoglobin, and
ECF-volume denominators of the integrator. -/
def stepDenomsOK (ops : TranscendOps) (s : SimulationState) (p : PhysiologicalParams)
    (ft : FluidType) (rate_hr dt : ℚ) : Prop :=
  derivDenomsOK ops s p (rateMin rate_hr) ∧
  derivDenomsOK ops (tempState ops s p ft rate_hr dt) p (rateMin rate_hr) ∧
  p.venous_compliance_ml_mmhg ≠ 0 ∧
  p.interstitial_compliance_ml_mmhg ≠ 0 ∧
  newVBlood ops s p ft rate_hr dt * 10 ≠ 0 ∧
  newVBlood ops s p ft rate_hr dt + newVInter ops s p ft rate_hr dt ≠ 0 ∧
  (newVBlood ops s p ft rate_hr dt + newVInter ops s p ft rate_hr dt) * 10 ≠ 0

instance (ops : TranscendOps) (s : SimulationState) (p : PhysiologicalParams) (rate : ℚ) :
    Decidable (derivDenomsOK ops s p rate) := by
  unfold derivDenomsOK
  infer_instance

instance (ops : TranscendOps) (s : SimulationState) (p : PhysiologicalParams)
    (ft : FluidType) (rate_hr dt : ℚ) : Decidable (stepDenomsOK ops s p ft rate_hr dt) := by
  unfold stepDenomsOK
  infer_instance

/-- The Frank-Starling curve of specification section 4.5 (the one the
simulator uses in `_calculate_derivatives`), as a standalone function of the
preload ratio, for comparison with the calibrator. -/
def starlingCurve45 (sam : Bool) (contractility r : ℚ) : ℚ :=
  if r ≤ 1 then
    if r < 0.8 ∧ sam = false then r * (1 + (0.8 - r) * (0.3 * contractility)) else r
  else if r ≤ 1.3 then 1
  else max 0.85 (1 - (r - 1.3) * 0.3)

/-- Base cardiac output as claim C5 words it: `0.15 * weight * contractility`
times the section-4.5 Frank-Starling efficiency evaluated at the estimated
starting blood volume. -/
def claimBaseCo45 (ops : TranscendOps) (inp : PatientInput) : ℚ :=
  inp.weight_kg * 0.15 * engineContractility ops inp *
    starlingCurve45 (decide (inp.muac_cm < 11.5)) (engineContractility ops inp)
      (estStartVolume inp * 1000 / optPreload inp)

/-- The SVR fixed point exactly as claim C5 states it: the section-4.5 curve
feeding the base CO, 15 damped iterations, final clamp to [200, 20000]. -/
def claimSvrC5 (ops : TranscendOps) (inp : PatientInput) : ℚ :=
  max 200 (min (iterateN (svrIterStep (observedMap inp) (assumedCvp inp)
    (afterloadSens inp) (claimBaseCo45 ops inp)) 15 (calcHemodynamics ops inp).svr) 20000)

/-! Concrete evaluation instances.  `flatParams` and `flatState` are a
minimal stable configuration: zero contractility pins the derived MAP at its
30 mmHg clamp, so renal perfusion stays below 30 on every evaluation (the
urine branch with `math.exp` is never taken) and the state is hypotensive
(the baroreflex branch with the fractional power is never taken), keeping
`refOps` exact. -/

def flatParams : PhysiologicalParams :=
  { tbw_fraction := 0.6, v_blood_normal_l := 1, v_inter_normal_l := 1
    cardiac_contractility := 0, heart_stiffness_k := 4
    svr_resistance := 1000, capillary_filtration_k := 0, blood_viscosity_eta := 1
    tissue_compliance_factor := 1, renal_maturity_factor := 1
    max_cardiac_output_l_min := 0, venous_compliance_ml_mmhg := 1
    osmotic_conductance_k := 0.5, lymphatic_drainage_capacity_ml_min := 0
    intracellular_sodium_bias := 1, target_map_mmhg := 65
    target_heart_rate_upper_limit := 160, target_respiratory_rate_limit := 50
    insensible_loss_ml_min := 0, plasma_oncotic_pressure_mmhg := 0
    reflection_coefficient_sigma := 0.9, glucose_utilization_mg_kg_min := 0
    afterload_sensitivity := 0.2, baseline_capillary_pressure_mmhg := 25
    optimal_preload_ml := 0, weight_kg := 0
    interstitial_compliance_ml_mmhg := 1, target_cvp_mmhg := 5
    albumin_uncertainty_g_dl := 0, is_sam := false
    final_starting_blood_volume_l := 1, capillary_recruitment_base := 1 }

def flatState : SimulationState :=
  { time_minutes := 0, v_blood_current_l := 1, v_interstitial_current_l := 1
    v_intracellular_current_l := 1, map_mmHg := 30, cvp_mmHg := 5, pcwp_mmHg := 6
    p_interstitial_mmHg := 0, q_infusion_ml_min := 0, q_leak_ml_min := 0
    q_urine_ml_min := 0, q_lymph_ml_min := 0, q_osmotic_shift_ml_min := 0
    total_volume_infused_ml := 0, total_sodium_load_meq := 0
    current_hematocrit_dynamic := 30, current_weight_dynamic_kg := 10
    q_ongoing_loss_ml_min := 0, q_insensible_loss_ml_min := 0
    current_glucose_mg_dl := 100, cumulative_bolus_count := 0
    time_since_last_bolus_min := 999, current_sodium := 140
    current_hemoglobin := 10, current_potassium := 4.2, current_lactate_mmol_l := 2
    is_sam := false, capillary_recruitment_base := 1, final_starting_blood_volume_l := 1 }

/-- Validated patient for the C1 counterexample: severe dehydration with
4+ second refill and SBP 150, whose calibrated SVR lands exactly on the
20000 clamp.  Weight 10 kg makes the size correction `(10/10) ** 0.5 = 1`
and hematocrit 15 keeps the viscosity on its linear branch, so the
calibration is exactly rational. -/
def cxInput1 : PatientInput :=
  { age_months := 24, weight_kg := 10, muac_cm := 14, temp_celsius := 37
    hemoglobin_g_dl := 10, systolic_bp := 150, heart_rate := 140
    capillary_refill_sec := 5, sp_o2_percent := 98, respiratory_rate_bpm := 30
    diastolic_bp := none, lactate_mmol_l := none, illness_day := none
    plasma_albumin_g_dl := some 4, platelet_count := none
    current_sodium := 140, current_glucose := 90, hematocrit_pct := 15
    diagnosis := ClinicalDiagnosis.SEVERE_DEHYDRATION
    time_since_last_urine_hours := 0, ongoing_losses_severity := OngoingLosses.NONE
    baseline_hepatomegaly := false, height_cm := none }

/-- State satisfying every section-3 invariant against the C1 params
(hematocrit sits on the 70 boundary) whose hemoglobin of 26 g/dL makes the
next step report hematocrit 78. -/
def state1 : SimulationState :=
  { time_minutes := 0, v_blood_current_l := 0.5, v_interstitial_current_l := 1.875
    v_intracellular_current_l := 3.5, map_mmHg := 70, cvp_mmHg := 5, pcwp_mmHg := 6
    p_interstitial_mmHg := 0, q_infusion_ml_min := 0, q_leak_ml_min := 0
    q_urine_ml_min := 0, q_lymph_ml_min := 0, q_osmotic_shift_ml_min := 0
    total_volume_infused_ml := 0, total_sodium_load_meq := 0
    current_hematocrit_dynamic := 70, current_weight_dynamic_kg := 10
    q_ongoing_loss_ml_min := 0, q_insensible_loss_ml_min := 0
    current_glucose_mg_dl := 100, cumulative_bolus_count := 0
    time_since_last_bolus_min := 999, current_sodium := 140
    current_hemoglobin := 26, current_potassium := 4.2, current_lactate_mmol_l := 2
    is_sam := false, capillary_recruitment_base := 1, final_starting_blood_volume_l := 0.5 }

/-- Validated patient for the C4 counterexample: undifferentiated shock,
SBP 100, no deficit, so the persisted target CVP is 5 while the initializer
back-calculates a starting CVP clamped to 1. -/
def cxInput4 : PatientInput :=
  { cxInput1 with
    systolic_bp := 100
    capillary_refill_sec := 2
    diagnosis := ClinicalDiagnosis.UNKNOWN }

/-- The C4 patient with hepatomegaly, for the witness of the forced
10 mmHg starting CVP. -/
def cxInput4h : PatientInput :=
  { cxInput4 with baseline_hepatomegaly := true }

/-- Validated patient for the C5 counterexample: severe dehydration with
refill 3 s, so the solver preload ratio is 0.52 and the section-4.5 curve
(sympathetic boost) disagrees with the calibrator inline curve. -/
def cxInput5 : PatientInput :=
  { cxInput1 with
    systolic_bp := 100
    capillary_refill_sec := 3 }

/-- C2 counterexample state: blood volume already on the 40% floor with a
60 ml/min ongoing loss, so the floor absorbs 15 ml of the step balance. -/
def cx2State : SimulationState :=
  { flatState with v_blood_current_l := 0.4, q_ongoing_loss_ml_min := 60 }

/-- C3 counterexample state: zero blood volume, the denominator of the
oncotic dilution term. -/
def cx3State : SimulationState :=
  { flatState with v_blood_current_l := 0 }

/-- C7 witness state: interstitial pressure exactly on the 4 mmHg guard. -/
def cx7State : SimulationState :=
  { flatState with p_interstitial_mmHg := 4 }

/-- C8 counterexample params: filtration coefficient 10 produces a leak past
300 ml/min, shrinking the blood volume against a 1 ml/min infusion. -/
def cx8Params : PhysiologicalParams :=
  { flatParams with capillary_filtration_k := 10 }

/-- C8 state: half-full blood compartment with consistent Hct = 3 Hb. -/
def cx8State : SimulationState :=
  { flatState with v_blood_current_l := 0.5 }


/-! Projection lemmas: each stepped field in terms of its named quantity. -/

theorem step_time_minutes (ops : TranscendOps) (s : SimulationState) (p : PhysiologicalParams)
    (rate_hr : ℚ) (ft : FluidType) (dt : ℚ) :
    (simulate_single_step ops s p rate_hr ft dt).time_minutes = s.time_minutes + dt := rfl

theorem step_v_blood (ops : TranscendOps) (s : SimulationState) (p : PhysiologicalParams)
    (rate_hr : ℚ) (ft : FluidType) (dt : ℚ) :
    (simulate_single_step ops s p rate_hr ft dt).v_blood_current_l =
      newVBlood ops s p ft rate_hr dt := rfl

theorem step_v_inter (ops : TranscendOps) (s : SimulationState) (p : PhysiologicalParams)
    (rate_hr : ℚ) (ft : FluidType) (dt : ℚ) :
    (simulate_single_step ops s p rate_hr ft dt).v_interstitial_current_l =
      newVInter ops s p ft rate_hr dt := rfl

theorem step_v_icf (ops : TranscendOps) (s : SimulationState) (p : PhysiologicalParams)
    (rate_hr : ℚ) (ft : FluidType) (dt : ℚ) :
    (simulate_single_step ops s p rate_hr ft dt).v_intracellular_current_l =
      newVIcf s p ft rate_hr dt := rfl

theorem step_map (ops : TranscendOps) (s : SimulationState) (p : PhysiologicalParams)
    (rate_hr : ℚ) (ft : FluidType) (dt : ℚ) :
    (simulate_single_step ops s p rate_hr ft dt).map_mmHg = newMap ops s p ft rate_hr dt := rfl

theorem step_cvp (ops : TranscendOps) (s : SimulationState) (p : PhysiologicalParams)
    (rate_hr : ℚ) (ft : FluidType) (dt : ℚ) :
    (simulate_single_step ops s p rate_hr ft dt).cvp_mmHg = newCvp ops s p ft rate_hr dt := rfl

theorem step_p_inter (ops : TranscendOps) (s : SimulationState) (p : PhysiologicalParams)
    (rate_hr : ℚ) (ft : FluidType) (dt : ℚ) :
    (simulate_single_step ops s p rate_hr ft dt).p_interstitial_mmHg =
      newPInter ops s p ft rate_hr dt := rfl

theorem step_q_urine (ops : TranscendOps) (s : SimulationState) (p : PhysiologicalParams)
    (rate_hr : ℚ) (ft : FluidType) (dt : ℚ) :
    (simulate_single_step ops s p rate_hr ft dt).q_urine_ml_min = qUrine ops s p := rfl

theorem step_sodium (ops : TranscendOps) (s : SimulationState) (p : PhysiologicalParams)
    (rate_hr : ℚ) (ft : FluidType) (dt : ℚ) :
    (simulate_single_step ops s p rate_hr ft dt).current_sodium =
      newSodium ops s p ft rate_hr dt := rfl

theorem step_potassium (ops : TranscendOps) (s : SimulationState) (p : PhysiologicalParams)
    (rate_hr : ℚ) (ft : FluidType) (dt : ℚ) :
    (simulate_single_step ops s p rate_hr ft dt).current_potassium =
      newPotassium ops s p ft rate_hr dt := rfl

theorem step_glucose (ops : TranscendOps) (s : SimulationState) (p : PhysiologicalParams)
    (rate_hr : ℚ) (ft : FluidType) (dt : ℚ) :
    (simulate_single_step ops s p rate_hr ft dt).current_glucose_mg_dl =
      newGlucose ops s p ft rate_hr dt := rfl

theorem step_hemoglobin (ops : TranscendOps) (s : SimulationState) (p : PhysiologicalParams)
    (rate_hr : ℚ) (ft : FluidType) (dt : ℚ) :
    (simulate_single_step ops s p rate_hr ft dt).current_hemoglobin =
      newHemoglobin ops s p ft rate_hr dt := rfl

theorem step_hematocrit (ops : TranscendOps) (s : SimulationState) (p : PhysiologicalParams)
    (rate_hr : ℚ) (ft : FluidType) (dt : ℚ) :
    (simulate_single_step ops s p rate_hr ft dt).current_hematocrit_dynamic =
      newHematocrit ops s p ft rate_hr dt := rfl

theorem step_lactate (ops : TranscendOps) (s : SimulationState) (p : PhysiologicalParams)
    (rate_hr : ℚ) (ft : FluidType) (dt : ℚ) :
    (simulate_single_step ops s p rate_hr ft dt).current_lactate_mmol_l =
      max 0.1 (min (newLactate ops s p ft rate_hr dt) 25) := rfl

theorem step_q_ongoing (ops : TranscendOps) (s : SimulationState) (p : PhysiologicalParams)
    (rate_hr : ℚ) (ft : FluidType) (dt : ℚ) :
    (simulate_single_step ops s p rate_hr ft dt).q_ongoing_loss_ml_min =
      s.q_ongoing_loss_ml_min := rfl

theorem step_q_insensible (ops : TranscendOps) (s : SimulationState) (p : PhysiologicalParams)
    (rate_hr : ℚ) (ft : FluidType) (dt : ℚ) :
    (simulate_single_step ops s p rate_hr ft dt).q_insensible_loss_ml_min =
      s.q_insensible_loss_ml_min := rfl

/-! Clamp bounds for the stepped quantities. -/

theorem derivedMap_lb (ops : TranscendOps) (s : SimulationState) (p : PhysiologicalParams) :
    30 ≤ derivedMap ops s p := by
  unfold derivedMap
  exact le_max_left _ _

theorem derivedMap_ub (ops : TranscendOps) (s : SimulationState) (p : PhysiologicalParams) :
    derivedMap ops s p ≤ 160 := by
  unfold derivedMap
  exact max_le (by norm_num) (min_le_right _ _)

theorem newHemoglobin_lb (ops : TranscendOps) (s : SimulationState) (p : PhysiologicalParams)
    (ft : FluidType) (rate_hr dt : ℚ) : 2 ≤ newHemoglobin ops s p ft rate_hr dt := by
  simp only [newHemoglobin]
  exact le_max_left _ _

theorem newHemoglobin_ub (ops : TranscendOps) (s : SimulationState) (p : PhysiologicalParams)
    (ft : FluidType) (rate_hr dt : ℚ) : newHemoglobin ops s p ft rate_hr dt ≤ 26 := by
  simp only [newHemoglobin]
  exact max_le (by norm_num) (min_le_right _ _)

/-- C1 (amended): for params produced by the calibrator from any validated
input and any state satisfying the section-3 invariants, one step at dt = 1
with a non-negative rate and any fluid tag re-establishes every invariant
with the hematocrit ceiling amended from 70 to 78 (the stepper clamps
hemoglobin to [2, 26] g/dL and stores hematocrit as 3 times it, so the
post-step hematocrit lies in [6, 78]), and time strictly increases. -/
theorem C1_step_invariants (ops : TranscendOps) (inp : PatientInput) (hval : inp.Valid)
    (s : SimulationState) (hinv : StateInvariants (mkParams ops inp) s)
    (rate_hr : ℚ) (hrate : 0 ≤ rate_hr) (ft : FluidType) :
    StateInvariantsHct78 (mkParams ops inp)
      (simulate_single_step ops s (mkParams ops inp) rate_hr ft 1) ∧
    s.time_minutes < (simulate_single_step ops s (mkParams ops inp) rate_hr ft 1).time_minutes := by
  obtain ⟨-, -, -, hm30, hm160, -⟩ := hinv
  constructor
  · refine ⟨?_, ?_, ?_, ?_, ?_, ?_, ?_, ?_, ?_, ?_, ?_, ?_, ?_, ?_, ?_, ?_, ?_, ?_⟩
    · rw [step_v_blood]
      unfold newVBlood
      exact le_max_right _ _
    · rw [step_v_inter]
      unfold newVInter
      exact le_max_right _ _
    · rw [step_v_icf]
      unfold newVIcf
      exact le_max_right _ _
    · rw [step_map]
      unfold newMap
      have h1 := derivedMap_lb ops (tempState ops s (mkParams ops inp) ft rate_hr 1) (mkParams ops inp)
      linarith
    · rw [step_map]
      unfold newMap
      have h2 := derivedMap_ub ops (tempState ops s (mkParams ops inp) ft rate_hr 1) (mkParams ops inp)
      linarith
    · rw [step_cvp]
      unfold newCvp
      exact le_max_left _ _
    · rw [step_cvp]
      unfold newCvp
      exact max_le (by norm_num) (min_le_right _ _)
    · rw [step_p_inter]
      unfold newPInter
      exact le_max_left _ _
    · rw [step_sodium]
      simp only [newSodium]
      exact le_max_left _ _
    · rw [step_sodium]
      simp only [newSodium]
      exact max_le (by norm_num) (min_le_right _ _)
    · rw [step_potassium]
      simp only [newPotassium]
      exact le_max_left _ _
    · rw [step_potassium]
      simp only [newPotassium]
      exact max_le (by norm_num) (min_le_right _ _)
    · rw [step_glucose]
      simp only [newGlucose]
      exact le_max_left _ _
    · rw [step_glucose]
      simp only [newGlucose]
      exact max_le (by norm_num) (min_le_right _ _)
    · rw [step_hematocrit]
      unfold newHematocrit
      have h1 := newHemoglobin_lb ops s (mkParams ops inp) ft rate_hr 1
      linarith
    · rw [step_hematocrit]
      unfold newHematocrit
      have h2 := newHemoglobin_ub ops s (mkParams ops inp) ft rate_hr 1
      linarith
    · rw [step_lactate]
      exact le_max_left _ _
    · rw [step_lactate]
      exact max_le (by norm_num) (min_le_right _ _)
  · rw [step_time_minutes]
    linarith

/-- C1 counterexample: a validated patient, calibrator params and a state
satisfying every section-3 invariant (hematocrit exactly 70) for which the
stepped state reports hematocrit 78, violating the claimed ceiling of 70. -/
theorem C1_counterexample :
    cxInput1.Valid ∧
    StateInvariants (mkParams refOps cxInput1) state1 ∧
    70 < (simulate_single_step refOps state1 (mkParams refOps cxInput1) 0
      FluidType.RL 1).current_hematocrit_dynamic := by
  refine ⟨by decide, by decide, by decide⟩

/-- C1 witness: the amended theorem applied to the same concrete patient and
state, with every hypothesis discharged by evaluation. -/
theorem C1_witness :
    cxInput1.Valid ∧
    StateInvariants (mkParams refOps cxInput1) state1 ∧
    (StateInvariantsHct78 (mkParams refOps cxInput1)
      (simulate_single_step refOps state1 (mkParams refOps cxInput1) 0 FluidType.RL 1) ∧
     state1.time_minutes <
      (simulate_single_step refOps state1 (mkParams refOps cxInput1) 0
        FluidType.RL 1).time_minutes) :=
  ⟨by decide, by decide,
    C1_step_invariants refOps cxInput1 (by decide) state1 (by decide) 0 (by norm_num)
      FluidType.RL⟩


/-- C2 (amended): one step conserves fluid mass exactly - the change of the
three-compartment total in ml equals `(rate - q_urine - q_insensible -
q_ongoing) * dt` with the urine flux of that step - provided none of the
three volume floors binds; the leak, lymph and osmotic fluxes cancel.
(Exact equality implies the claimed 1e-4 ml tolerance.) -/
theorem C2_mass_conservation (ops : TranscendOps) (s : SimulationState)
    (p : PhysiologicalParams) (ft : FluidType) (rate_hr dt : ℚ)
    (hfb : p.v_blood_normal_l * 0.4 ≤ s.v_blood_current_l + dvBloodMl ops s p ft rate_hr dt / 1000)
    (hfi : (0.1 : ℚ) ≤ s.v_interstitial_current_l + dvInterMl ops s p ft rate_hr dt / 1000)
    (hfc : (0.1 : ℚ) ≤ s.v_intracellular_current_l + dvIcfMl s p ft rate_hr dt / 1000) :
    ((simulate_single_step ops s p rate_hr ft dt).v_blood_current_l +
      (simulate_single_step ops s p rate_hr ft dt).v_interstitial_current_l +
      (simulate_single_step ops s p rate_hr ft dt).v_intracellular_current_l -
      (s.v_blood_current_l + s.v_interstitial_current_l + s.v_intracellular_current_l)) * 1000 =
    (rateMin rate_hr - (simulate_single_step ops s p rate_hr ft dt).q_urine_ml_min -
      s.q_insensible_loss_ml_min - s.q_ongoing_loss_ml_min) * dt := by
  have e1 : (simulate_single_step ops s p rate_hr ft dt).v_blood_current_l =
      s.v_blood_current_l + dvBloodMl ops s p ft rate_hr dt / 1000 := by
    rw [step_v_blood]
    unfold newVBlood
    exact max_eq_left hfb
  have e2 : (simulate_single_step ops s p rate_hr ft dt).v_interstitial_current_l =
      s.v_interstitial_current_l + dvInterMl ops s p ft rate_hr dt / 1000 := by
    rw [step_v_inter]
    unfold newVInter
    exact max_eq_left hfi
  have e3 : (simulate_single_step ops s p rate_hr ft dt).v_intracellular_current_l =
      s.v_intracellular_current_l + dvIcfMl s p ft rate_hr dt / 1000 := by
    rw [step_v_icf]
    unfold newVIcf
    exact max_eq_left hfc
  rw [e1, e2, e3, step_q_urine]
  simp only [dvBloodMl, dvInterMl, dvIcfMl]
  ring

/-- C2 counterexample: with the blood volume already on its 40% floor and a
60 ml/min ongoing loss, the floor absorbs 15 ml in one step: the total
change is -45 ml while the claimed balance is -60 ml, missing the stated
1e-4 ml tolerance by 15 ml. -/
theorem C2_counterexample :
    1 / 10000 <
      |((simulate_single_step refOps cx2State flatParams 0 FluidType.RL 1).v_blood_current_l +
         (simulate_single_step refOps cx2State flatParams 0 FluidType.RL 1).v_interstitial_current_l +
         (simulate_single_step refOps cx2State flatParams 0 FluidType.RL 1).v_intracellular_current_l -
         (cx2State.v_blood_current_l + cx2State.v_interstitial_current_l +
           cx2State.v_intracellular_current_l)) * 1000 -
        (rateMin 0 - (simulate_single_step refOps cx2State flatParams 0 FluidType.RL 1).q_urine_ml_min -
          cx2State.q_insensible_loss_ml_min - cx2State.q_ongoing_loss_ml_min) * 1| := by
  decide

/-- C2 witness: the conservation theorem applied at a stable concrete
configuration where no floor binds. -/
theorem C2_witness :
    (flatParams.v_blood_normal_l * 0.4 ≤
      flatState.v_blood_current_l + dvBloodMl refOps flatState flatParams FluidType.RL 0 1 / 1000) ∧
    ((0.1 : ℚ) ≤
      flatState.v_interstitial_current_l + dvInterMl refOps flatState flatParams FluidType.RL 0 1 / 1000) ∧
    ((0.1 : ℚ) ≤
      flatState.v_intracellular_current_l + dvIcfMl flatState flatParams FluidType.RL 0 1 / 1000) ∧
    ((simulate_single_step refOps flatState flatParams 0 FluidType.RL 1).v_blood_current_l +
      (simulate_single_step refOps flatState flatParams 0 FluidType.RL 1).v_interstitial_current_l +
      (simulate_single_step refOps flatState flatParams 0 FluidType.RL 1).v_intracellular_current_l -
      (flatState.v_blood_current_l + flatState.v_interstitial_current_l +
        flatState.v_intracellular_current_l)) * 1000 =
    (rateMin 0 - (simulate_single_step refOps flatState flatParams 0 FluidType.RL 1).q_urine_ml_min -
      flatState.q_insensible_loss_ml_min - flatState.q_ongoing_loss_ml_min) * 1 :=
  ⟨by decide, by decide, by decide,
    C2_mass_conservation refOps flatState flatParams FluidType.RL 0 1
      (by decide) (by decide) (by decide)⟩


/-- All derivative-evaluation denominators are nonzero whenever the state
has nonzero blood volume, the target MAP is nonzero, and the exponential
primitive is nonnegative (as the real `math.exp` is). -/
theorem derivDenomsOK_of (ops : TranscendOps) (s : SimulationState) (p : PhysiologicalParams)
    (rate : ℚ) (hexp : ∀ x, 0 ≤ ops.expR x) (hmap : p.target_map_mmhg ≠ 0)
    (hvb : s.v_blood_current_l ≠ 0) : derivDenomsOK ops s p rate := by
  refine ⟨?_, ?_, ?_, ?_, ?_, hmap, hvb, ?_, ?_⟩
  · exact ne_of_gt (lt_of_lt_of_le (by norm_num) (le_max_right _ _))
  · exact ne_of_gt (lt_of_lt_of_le (by norm_num) (le_max_left _ _))
  · exact ne_of_gt (lt_of_lt_of_le (by norm_num) (le_max_left _ _))
  · unfold trueCoEst
    exact ne_of_gt (lt_of_lt_of_le (by norm_num) (le_max_left _ _))
  · exact ne_of_gt (lt_of_lt_of_le (by norm_num) (le_max_left _ _))
  · intro _
    have h := hexp (-(derivedMap ops s p - s.cvp_mmHg - 45) / 5)
    exact ne_of_gt (by linarith)
  · intro h
    exact ne_of_gt h.2

/-- The nonnegativity of the reference exponential interpretation, matching
the real `math.exp`. -/
theorem refOps_expR_nonneg : ∀ x : ℚ, 0 ≤ refOps.expR x := fun _ => le_refl 0

/-- C3 (amended): every division of `simulate_single_step` (both derivative
evaluations and the integrator) has a nonzero denominator, provided the
incoming blood volume is nonzero and the params have nonzero target MAP,
nonzero venous and interstitial compliances, and positive normal blood
volume - all guaranteed for calibrator outputs.  The incoming-blood-volume
hypothesis is necessary: the oncotic dilution `v_blood_normal /
v_blood_current` is the one unguarded division (see the counterexample). -/
theorem C3_step_divisions_guarded (ops : TranscendOps) (s : SimulationState)
    (p : PhysiologicalParams) (ft : FluidType) (rate_hr dt : ℚ)
    (hexp : ∀ x, 0 ≤ ops.expR x)
    (hmap : p.target_map_mmhg ≠ 0)
    (hven : p.venous_compliance_ml_mmhg ≠ 0)
    (hint : p.interstitial_compliance_ml_mmhg ≠ 0)
    (hvbn : 0 < p.v_blood_normal_l)
    (hvb : s.v_blood_current_l ≠ 0) :
    stepDenomsOK ops s p ft rate_hr dt := by
  have hnvpos : 0 < newVBlood ops s p ft rate_hr dt := by
    unfold newVBlood
    exact lt_of_lt_of_le (by nlinarith) (le_max_right _ _)
  have hnipos : 0 < newVInter ops s p ft rate_hr dt := by
    unfold newVInter
    exact lt_of_lt_of_le (by norm_num) (le_max_right _ _)
  refine ⟨derivDenomsOK_of ops s p _ hexp hmap hvb,
    derivDenomsOK_of ops _ p _ hexp hmap ?_, hven, hint, ?_, ?_, ?_⟩
  · exact ne_of_gt hnvpos
  · exact mul_ne_zero (ne_of_gt hnvpos) (by norm_num)
  · exact ne_of_gt (add_pos hnvpos hnipos)
  · exact mul_ne_zero (ne_of_gt (add_pos hnvpos hnipos)) (by norm_num)

/-- C3 counterexample: at a state with zero blood volume the oncotic
dilution term of the derivative evaluation divides by zero (the source,
line 823, computes `params.v_blood_normal_l / state.v_blood_current_l`
without a guard), so the step is not total over all states. -/
theorem C3_counterexample :
    ¬ stepDenomsOK refOps cx3State flatParams FluidType.RL 0 1 := by
  decide

/-- C3 witness: the guarded-divisions theorem applied at a concrete state
and params, with the evaluable hypotheses discharged by evaluation and the
exponential nonnegativity by `refOps_expR_nonneg`. -/
theorem C3_witness :
    flatParams.target_map_mmhg ≠ 0 ∧
    flatParams.venous_compliance_ml_mmhg ≠ 0 ∧
    flatParams.interstitial_compliance_ml_mmhg ≠ 0 ∧
    0 < flatParams.v_blood_normal_l ∧
    flatState.v_blood_current_l ≠ 0 ∧
    stepDenomsOK refOps flatState flatParams FluidType.RL 0 1 :=
  ⟨by decide, by decide, by decide, by decide, by decide,
    C3_step_divisions_guarded refOps flatState flatParams FluidType.RL 0 1
      refOps_expR_nonneg (by decide) (by decide) (by decide) (by decide) (by decide)⟩


/-- C4 (amended): the initializer computes the T=0 blood volume backwards
not from the persisted target CVP but from its own back-calculated starting
CVP `clamp(MAP_obs - co_est * SVR / 80, 1, 18)` (with `co_est` 75% of peak
output, 1.2x in sepsis), raised to at least 10 whenever hepatomegaly is
present; the volume formula and 35% floor are as claimed:
`v_blood = max(v_normal + (cvp - 3) * venous_compliance / 1000,
0.35 * v_normal)`. -/
theorem C4_init_blood_volume (ops : TranscendOps) (inp : PatientInput) :
    (mkInitState inp (mkParams ops inp)).v_blood_current_l =
      max ((mkParams ops inp).v_blood_normal_l +
        (initStartCvp inp (mkParams ops inp) - 3) *
          (mkParams ops inp).venous_compliance_ml_mmhg / 1000)
        ((mkParams ops inp).v_blood_normal_l * 0.35) ∧
    (inp.baseline_hepatomegaly = true → 10 ≤ initStartCvp inp (mkParams ops inp)) := by
  constructor
  · rfl
  · intro h
    unfold initStartCvp
    rw [if_pos h]
    exact le_max_right _ _

/-- C4 counterexample: a validated undifferentiated-shock patient whose
persisted target CVP is 5 while the initializer back-calculates a starting
CVP clamped to 1; the resulting T=0 blood volume (0.595 L) differs from the
value the claim's formula gives from the persisted target CVP (0.655 L). -/
theorem C4_counterexample :
    cxInput4.Valid ∧
    (mkInitState cxInput4 (mkParams refOps cxInput4)).v_blood_current_l ≠
      max ((mkParams refOps cxInput4).v_blood_normal_l +
        ((mkParams refOps cxInput4).target_cvp_mmhg - 3) *
          (mkParams refOps cxInput4).venous_compliance_ml_mmhg / 1000)
        ((mkParams refOps cxInput4).v_blood_normal_l * 0.35) := by
  refine ⟨by decide, by decide⟩

/-- C4 witness: the amended theorem at the concrete hepatomegaly patient,
with the hepatomegaly antecedent discharged. -/
theorem C4_witness :
    (mkInitState cxInput4h (mkParams refOps cxInput4h)).v_blood_current_l =
      max ((mkParams refOps cxInput4h).v_blood_normal_l +
        (initStartCvp cxInput4h (mkParams refOps cxInput4h) - 3) *
          (mkParams refOps cxInput4h).venous_compliance_ml_mmhg / 1000)
        ((mkParams refOps cxInput4h).v_blood_normal_l * 0.35) ∧
    10 ≤ initStartCvp cxInput4h (mkParams refOps cxInput4h) :=
  ⟨(C4_init_blood_volume refOps cxInput4h).1, (C4_init_blood_volume refOps cxInput4h).2 rfl⟩

/-- C5 (amended): the calibrated SVR is the fixed-point solver exactly as
claimed - MAP_obs and assumed CVP ground truths, 15 damped iterations of
`SVR <- (SVR + (MAP_obs - CVP) * 80 / max(0.01, base_CO * afterload)) / 2`
with the afterload factor floored at 0.3, final clamp [200, 20000],
afterload sensitivity halved above 3000 - except that the base cardiac
output `0.15 * weight * contractility * preload_efficiency` uses the
calibrator's own inline Starling curve (`calibPreloadEfficiency`: no
sympathetic boost, plateau only to ratio 1.2, failure slope 1.5 floored at
0.4), not the section-4.5 curve of the simulator. -/
theorem C5_svr_solver (ops : TranscendOps) (inp : PatientInput) :
    (mkParams ops inp).svr_resistance =
      max 200 (min (iterateN (svrIterStep (observedMap inp) (assumedCvp inp)
        (afterloadSens inp)
        (inp.weight_kg * 0.15 * engineContractility ops inp * calibPreloadEfficiency inp))
        15 (calcHemodynamics ops inp).svr) 20000) ∧
    (mkParams ops inp).afterload_sensitivity =
      (if 3000 < (mkParams ops inp).svr_resistance then afterloadSens inp * 0.5
       else afterloadSens inp) := by
  exact ⟨rfl, rfl⟩

/-- C5 counterexample: a validated severe-dehydration patient with solver
preload ratio about 0.52, where the claimed section-4.5 curve applies its
sympathetic boost but the calibrator's inline curve does not: the claimed
fixed point is about 13667 dyn.s.cm-5 while the calibrator stores about
15325. -/
theorem C5_counterexample :
    cxInput5.Valid ∧
    claimSvrC5 refOps cxInput5 ≠ (mkParams refOps cxInput5).svr_resistance := by
  refine ⟨by decide, by decide⟩


/-- The loop aborts exactly when some stepped state crosses the interstitial
5 mmHg or hematocrit 20 hard-stop thresholds. -/
theorem runLoop_aborted_iff (ops : TranscendOps) (p : PhysiologicalParams) (ft : FluidType)
    (rate_ml_hr : ℚ) : ∀ (n : ℕ) (s : SimulationState),
    (runLoop ops p ft rate_ml_hr n s).aborted = true ↔
      ∃ x ∈ (runLoop ops p ft rate_ml_hr n s).stepped,
        5 < x.p_interstitial_mmHg ∨ x.current_hematocrit_dynamic < 20 := by
  intro n
  induction n with
  | zero =>
    intro s
    simp [runLoop]
  | succ n ih =>
    intro s
    simp only [runLoop, apply_ite LoopOut.aborted, apply_ite LoopOut.stepped]
    split_ifs with h1 h2 h3
    · simp [h1]
    · simp [h2]
    · rw [ih]
      simp only [List.mem_cons]
      constructor
      · rintro ⟨x, hx, hoff⟩
        exact ⟨x, Or.inr hx, hoff⟩
      · rintro ⟨x, hx | hx, hoff⟩
        · subst hx
          rcases hoff with hp | hh
          · exact absurd hp h1
          · exact absurd hh h2
        · exact ⟨x, hx, hoff⟩
    · rw [ih]
      simp only [List.mem_cons]
      constructor
      · rintro ⟨x, hx, hoff⟩
        exact ⟨x, Or.inr hx, hoff⟩
      · rintro ⟨x, hx | hx, hoff⟩
        · subst hx
          rcases hoff with hp | hh
          · exact absurd hp h1
          · exact absurd hh h2
        · exact ⟨x, hx, hoff⟩

/-- Shape of a run when the pre-run congestion guard does not fire. -/
theorem run_simulation_no_guard (ops : TranscendOps) (init : SimulationState)
    (p : PhysiologicalParams) (ft : FluidType) (vol : ℚ) (dur : ℕ)
    (h : init.p_interstitial_mmHg < 4) :
    run_simulation ops init p ft vol dur =
      ⟨(runLoop ops p ft (vol / (dur : ℚ) * 60) dur init).final,
        !(runLoop ops p ft (vol / (dur : ℚ) * 60) dur init).aborted,
        (runLoop ops p ft (vol / (dur : ℚ) * 60) dur init).triggers,
        (runLoop ops p ft (vol / (dur : ℚ) * 60) dur init).stepped⟩ := by
  unfold run_simulation
  rw [if_neg (not_le.mpr h)]

/-- C6 (amended): on every run whose pre-run congestion guard does not fire
(initial interstitial pressure below 4 mmHg), the driver returns success =
false exactly when some stepped state has interstitial pressure above 5 or
hematocrit below 20 - the volume and reassessment triggers never abort - and
so a successful run means every intermediate state stayed within both hard
stops.  (The guard itself also returns success = false without stepping,
which is why the claim as stated needs this amendment; see the
counterexample.) -/
theorem C6_abort_iff (ops : TranscendOps) (init : SimulationState) (p : PhysiologicalParams)
    (ft : FluidType) (vol : ℚ) (dur : ℕ) (hpre : init.p_interstitial_mmHg < 4) :
    ((run_simulation ops init p ft vol dur).success = false ↔
      ∃ x ∈ (run_simulation ops init p ft vol dur).stepped,
        5 < x.p_interstitial_mmHg ∨ x.current_hematocrit_dynamic < 20) ∧
    ((run_simulation ops init p ft vol dur).success = true →
      ∀ x ∈ (run_simulation ops init p ft vol dur).stepped,
        x.p_interstitial_mmHg ≤ 5 ∧ 20 ≤ x.current_hematocrit_dynamic) := by
  rw [run_simulation_no_guard ops init p ft vol dur hpre]
  have h := runLoop_aborted_iff ops p ft (vol / (dur : ℚ) * 60) dur init
  constructor
  · constructor
    · intro hs
      apply h.mp
      revert hs
      cases (runLoop ops p ft (vol / (dur : ℚ) * 60) dur init).aborted <;> simp
    · intro hex
      have hab := h.mpr hex
      simp [hab]
  · intro htrue x hx
    have hab : (runLoop ops p ft (vol / (dur : ℚ) * 60) dur init).aborted = false := by
      revert htrue
      cases (runLoop ops p ft (vol / (dur : ℚ) * 60) dur init).aborted <;> simp
    have hnex : ¬ ∃ y ∈ (runLoop ops p ft (vol / (dur : ℚ) * 60) dur init).stepped,
        5 < y.p_interstitial_mmHg ∨ y.current_hematocrit_dynamic < 20 := by
      intro hex
      rw [h.mpr hex] at hab
      exact absurd hab (by simp)
    push_neg at hnex
    exact hnex x hx

/-- C6 counterexample: a run stopped by the pre-run congestion guard
(initial interstitial pressure 4) returns success = false although no
stepped state violated either hard stop - the driver does not abort *only*
on the two stepped-state conditions. -/
theorem C6_counterexample :
    (run_simulation refOps cx7State flatParams FluidType.RL 0 1).success = false ∧
    ∀ x ∈ (run_simulation refOps cx7State flatParams FluidType.RL 0 1).stepped,
      ¬ (5 < x.p_interstitial_mmHg ∨ x.current_hematocrit_dynamic < 20) := by
  have hstep : (run_simulation refOps cx7State flatParams FluidType.RL 0 1).stepped = [] := by
    unfold run_simulation
    rw [if_pos (show (4 : ℚ) ≤ cx7State.p_interstitial_mmHg by decide)]
  refine ⟨?_, ?_⟩
  · unfold run_simulation
    rw [if_pos (show (4 : ℚ) ≤ cx7State.p_interstitial_mmHg by decide)]
  · intro x hx
    rw [hstep] at hx
    exact absurd hx (List.not_mem_nil x)

/-- C6 witness: the amended theorem at a concrete guard-free run that the
edema hard stop aborts; the success flag is false and a stepped state indeed
crossed a hard stop. -/
theorem C6_witness :
    flatState.p_interstitial_mmHg < 4 ∧
    (run_simulation refOps flatState flatParams FluidType.RL 100000 1).success = false := by
  refine ⟨by decide, ?_⟩
  have h := (C6_abort_iff refOps flatState flatParams FluidType.RL 100000 1 (by decide)).1
  exact h.mpr (by decide)

/-- C7 (confirmed): whenever the entry state has interstitial pressure at
least 4 mmHg, the driver refuses to simulate: it returns the initial state
unchanged, success = false, the single pre-existing-congestion stop trigger,
and an empty stepped list. -/
theorem C7_pre_run_guard (ops : TranscendOps) (init : SimulationState)
    (p : PhysiologicalParams) (ft : FluidType) (vol : ℚ) (dur : ℕ)
    (h : 4 ≤ init.p_interstitial_mmHg) :
    run_simulation ops init p ft vol dur =
      ⟨init, false, [RunTrigger.congestionStop], []⟩ := by
  unfold run_simulation
  rw [if_pos h]

/-- C7 witness: the guard theorem at a concrete state sitting exactly on the
4 mmHg threshold. -/
theorem C7_witness :
    (4 : ℚ) ≤ cx7State.p_interstitial_mmHg ∧
    (run_simulation refOps cx7State flatParams FluidType.NS 200 60).final_state = cx7State ∧
    (run_simulation refOps cx7State flatParams FluidType.NS 200 60).success = false ∧
    (run_simulation refOps cx7State flatParams FluidType.NS 200 60).triggers =
      [RunTrigger.congestionStop] ∧
    (run_simulation refOps cx7State flatParams FluidType.NS 200 60).stepped = [] := by
  have h := C7_pre_run_guard refOps cx7State flatParams FluidType.NS 200 60 (by decide)
  rw [h]
  exact ⟨by decide, rfl, rfl, rfl, rfl⟩

/-- The loop never touches the ongoing-loss and insensible-loss rates. -/
theorem runLoop_frame (ops : TranscendOps) (p : PhysiologicalParams) (ft : FluidType)
    (rate_ml_hr : ℚ) : ∀ (n : ℕ) (s : SimulationState),
    ((runLoop ops p ft rate_ml_hr n s).final.q_ongoing_loss_ml_min = s.q_ongoing_loss_ml_min ∧
     (runLoop ops p ft rate_ml_hr n s).final.q_insensible_loss_ml_min =
       s.q_insensible_loss_ml_min) ∧
    ∀ x ∈ (runLoop ops p ft rate_ml_hr n s).stepped,
      x.q_ongoing_loss_ml_min = s.q_ongoing_loss_ml_min ∧
      x.q_insensible_loss_ml_min = s.q_insensible_loss_ml_min := by
  intro n
  induction n with
  | zero =>
    intro s
    simp [runLoop]
  | succ n ih =>
    intro s
    simp only [runLoop, apply_ite LoopOut.final, apply_ite LoopOut.stepped]
    split_ifs with h1 h2 h3
    · refine ⟨⟨rfl, rfl⟩, ?_⟩
      intro x hx
      rw [List.mem_singleton] at hx
      subst hx
      exact ⟨rfl, rfl⟩
    · refine ⟨⟨rfl, rfl⟩, ?_⟩
      intro x hx
      rw [List.mem_singleton] at hx
      subst hx
      exact ⟨rfl, rfl⟩
    · obtain ⟨⟨hf1, hf2⟩, hs⟩ := ih
        { simulate_single_step ops s p rate_ml_hr ft 1 with cumulative_bolus_count := 1 }
      refine ⟨⟨hf1, hf2⟩, ?_⟩
      intro x hx
      rw [List.mem_cons] at hx
      rcases hx with hx | hx
      · subst hx
        exact ⟨rfl, rfl⟩
      · exact hs x hx
    · obtain ⟨⟨hf1, hf2⟩, hs⟩ := ih (simulate_single_step ops s p rate_ml_hr ft 1)
      refine ⟨⟨hf1, hf2⟩, ?_⟩
      intro x hx
      rw [List.mem_cons] at hx
      rcases hx with hx | hx
      · subst hx
        exact ⟨rfl, rfl⟩
      · exact hs x hx

/-- C10 (confirmed): one step hands the ongoing-loss and insensible-loss
rates through unchanged (they are not among the fields the source `replace`
rewrites), and across a whole run the final state and every stepped state
carry the initial state's rates, whatever the fluid, volume or duration. -/
theorem C10_loss_rates_frame (ops : TranscendOps) (s : SimulationState)
    (p : PhysiologicalParams) (rate_hr : ℚ) (ft : FluidType) (dt : ℚ)
    (init : SimulationState) (vol : ℚ) (dur : ℕ) :
    ((simulate_single_step ops s p rate_hr ft dt).q_ongoing_loss_ml_min =
       s.q_ongoing_loss_ml_min ∧
     (simulate_single_step ops s p rate_hr ft dt).q_insensible_loss_ml_min =
       s.q_insensible_loss_ml_min) ∧
    ((run_simulation ops init p ft vol dur).final_state.q_ongoing_loss_ml_min =
       init.q_ongoing_loss_ml_min ∧
     (run_simulation ops init p ft vol dur).final_state.q_insensible_loss_ml_min =
       init.q_insensible_loss_ml_min ∧
     ∀ x ∈ (run_simulation ops init p ft vol dur).stepped,
       x.q_ongoing_loss_ml_min = init.q_ongoing_loss_ml_min ∧
       x.q_insensible_loss_ml_min = init.q_insensible_loss_ml_min) := by
  refine ⟨⟨rfl, rfl⟩, ?_⟩
  unfold run_simulation
  split_ifs with h
  · refine ⟨rfl, rfl, ?_⟩
    intro x hx
    exact absurd hx (List.not_mem_nil x)
  · obtain ⟨⟨h1, h2⟩, h3⟩ := runLoop_frame ops p ft (vol / (dur : ℚ) * 60) dur init
    exact ⟨h1, h2, h3⟩

/-- C10 witness: the frame theorem extracted at a concrete step and run. -/
theorem C10_witness :
    (simulate_single_step refOps flatState flatParams 7 FluidType.NS 1).q_ongoing_loss_ml_min =
      flatState.q_ongoing_loss_ml_min ∧
    (run_simulation refOps flatState flatParams FluidType.NS 5 2).final_state.q_ongoing_loss_ml_min =
      flatState.q_ongoing_loss_ml_min ∧
    (run_simulation refOps flatState flatParams FluidType.NS 5 2).final_state.q_insensible_loss_ml_min =
      flatState.q_insensible_loss_ml_min :=
  ⟨(C10_loss_rates_frame refOps flatState flatParams 7 FluidType.NS 1 flatState 5 2).1.1,
   (C10_loss_rates_frame refOps flatState flatParams 7 FluidType.NS 1 flatState 5 2).2.1,
   (C10_loss_rates_frame refOps flatState flatParams 7 FluidType.NS 1 flatState 5 2).2.2.1⟩


/-- A clamp to [2, 26] that lands strictly inside the interval did not bind. -/
theorem clamp_open (x : ℚ) (h2 : 2 < max 2 (min x 26)) (h26 : max 2 (min x 26) < 26) :
    max 2 (min x 26) = x := by
  rcases le_or_lt x 2 with h | h
  · rw [max_eq_left (le_trans (min_le_left _ _) h)] at h2
    linarith
  rcases le_or_lt 26 x with h' | h'
  · rw [min_eq_right h', max_eq_right (by norm_num : (2:ℚ) ≤ 26)] at h26
    linarith
  · rw [min_eq_left (le_of_lt h'), max_eq_right (le_of_lt h)]

/-- C8 (amended): for an incoming state with consistent hematocrit
(Hct = 3 Hb), positive hemoglobin and blood volume, a step with positive
rate and dt whose hemoglobin clamp [2, 26] does not bind satisfies: a
non-colloid (crystalloid) infusion strictly lowers the hematocrit whenever
the blood volume strictly grows across the step; a PRBC infusion strictly
raises the stored intravascular mass Hb times v_blood; any non-PRBC fluid
conserves that mass exactly.  (The volume-growth condition and the clamp
condition are forced by the counterexample: a leak-dominated step
hemoconcentrates and raises Hct even while crystalloid is flowing.) -/
theorem C8_hemoglobin_mass (ops : TranscendOps) (s : SimulationState)
    (p : PhysiologicalParams) (rate_hr : ℚ) (ft : FluidType) (dt : ℚ)
    (hcons : s.current_hematocrit_dynamic = 3 * s.current_hemoglobin)
    (hhb : 0 < s.current_hemoglobin)
    (hv : 0 < s.v_blood_current_l)
    (hrate : 0 < rate_hr) (hdt : 0 < dt)
    (h2 : 2 < (simulate_single_step ops s p rate_hr ft dt).current_hemoglobin)
    (h26 : (simulate_single_step ops s p rate_hr ft dt).current_hemoglobin < 26) :
    ((fluidLibraryGet ft).is_colloid = false →
      s.v_blood_current_l < (simulate_single_step ops s p rate_hr ft dt).v_blood_current_l →
      (simulate_single_step ops s p rate_hr ft dt).current_hematocrit_dynamic <
        s.current_hematocrit_dynamic) ∧
    (ft = FluidType.PRBC →
      s.current_hemoglobin * s.v_blood_current_l <
        (simulate_single_step ops s p rate_hr ft dt).current_hemoglobin *
          (simulate_single_step ops s p rate_hr ft dt).v_blood_current_l) ∧
    (ft ≠ FluidType.PRBC →
      (simulate_single_step ops s p rate_hr ft dt).current_hemoglobin *
        (simulate_single_step ops s p rate_hr ft dt).v_blood_current_l =
        s.current_hemoglobin * s.v_blood_current_l) := by
  rw [step_hemoglobin] at h2 h26
  have hsi : 0 < stepInfusionL rate_hr dt := by
    unfold stepInfusionL rateMin
    positivity
  set R : ℚ := (s.current_hemoglobin * s.v_blood_current_l * 10 +
      (if ft = FluidType.PRBC then (22:ℚ) else 0) * stepInfusionL rate_hr dt * 10) /
      (newVBlood ops s p ft rate_hr dt * 10) with hR
  have hdef : newHemoglobin ops s p ft rate_hr dt = max 2 (min R 26) := rfl
  rw [hdef] at h2 h26
  have hMpos : 0 < s.current_hemoglobin * s.v_blood_current_l * 10 +
      (if ft = FluidType.PRBC then (22:ℚ) else 0) * stepInfusionL rate_hr dt * 10 := by
    have ha : 0 < s.current_hemoglobin * s.v_blood_current_l * 10 := by positivity
    have hb0 : (0:ℚ) ≤ (if ft = FluidType.PRBC then (22:ℚ) else 0) := by
      split_ifs <;> norm_num
    have hc : 0 ≤ (if ft = FluidType.PRBC then (22:ℚ) else 0) * stepInfusionL rate_hr dt * 10 :=
      mul_nonneg (mul_nonneg hb0 (le_of_lt hsi)) (by norm_num)
    linarith
  have hnz : 0 < newVBlood ops s p ft rate_hr dt := by
    rcases lt_trichotomy (newVBlood ops s p ft rate_hr dt) 0 with hlt | heq0 | hgt
    · have hRneg : R < 0 := by
        rw [hR]
        exact div_neg_of_pos_of_neg hMpos (by nlinarith)
      rw [max_eq_left (le_trans (min_le_left _ _) (by linarith))] at h2
      linarith
    · have hR0 : R = 0 := by rw [hR, heq0]; simp
      rw [max_eq_left (le_trans (min_le_left _ _) (by rw [hR0]; norm_num))] at h2
      linarith
    · exact hgt
  have hne : newVBlood ops s p ft rate_hr dt ≠ 0 := ne_of_gt hnz
  have heq : newHemoglobin ops s p ft rate_hr dt = R := by
    rw [hdef]
    exact clamp_open R h2 h26
  refine ⟨?_, ?_, ?_⟩
  · intro hcol hgrow
    have hft : ft ≠ FluidType.PRBC := by
      intro hEq
      rw [hEq] at hcol
      simp [fluidLibraryGet] at hcol
    rw [step_v_blood] at hgrow
    rw [step_hematocrit, hcons]
    unfold newHematocrit
    rw [heq, hR, if_neg hft]
    have h10 : 0 < newVBlood ops s p ft rate_hr dt * 10 := by positivity
    have hfrac : (s.current_hemoglobin * s.v_blood_current_l * 10 +
        0 * stepInfusionL rate_hr dt * 10) / (newVBlood ops s p ft rate_hr dt * 10) <
        s.current_hemoglobin := by
      rw [div_lt_iff₀ h10]
      nlinarith
    linarith
  · intro hft
    rw [step_hemoglobin, step_v_blood, heq, hR, if_pos hft]
    have key : (s.current_hemoglobin * s.v_blood_current_l * 10 +
        22 * stepInfusionL rate_hr dt * 10) / (newVBlood ops s p ft rate_hr dt * 10) *
        newVBlood ops s p ft rate_hr dt =
        (s.current_hemoglobin * s.v_blood_current_l * 10 +
          22 * stepInfusionL rate_hr dt * 10) / 10 := by
      field_simp
      ring
    rw [key]
    have hinf : 0 < 22 * stepInfusionL rate_hr dt * 10 := by positivity
    linarith
  · intro hft
    rw [step_hemoglobin, step_v_blood, heq, hR, if_neg hft]
    field_simp
    ring

/-- C8 counterexample: with filtration coefficient 10 the capillary leak
(about 320 ml/min) dwarfs a positive 60 ml/hr RL infusion; the blood volume
shrinks onto its floor and the stepped hematocrit rises from 30 to 37.5 -
a crystalloid step with positive rate does not monotonically decrease Hct. -/
theorem C8_counterexample :
    (0 : ℚ) < 60 ∧
    (fluidLibraryGet FluidType.RL).is_colloid = false ∧
    ¬ ((simulate_single_step refOps cx8State cx8Params 60 FluidType.RL 1).current_hematocrit_dynamic <
        cx8State.current_hematocrit_dynamic) := by
  refine ⟨by norm_num, by decide, by decide⟩

/-- C8 witness: the amended theorem at a concrete growing-volume crystalloid
step, every hypothesis and antecedent discharged by evaluation. -/
theorem C8_witness :
    cx8State.current_hematocrit_dynamic = 3 * cx8State.current_hemoglobin ∧
    (0 : ℚ) < cx8State.current_hemoglobin ∧
    (0 : ℚ) < cx8State.v_blood_current_l ∧
    (simulate_single_step refOps cx8State flatParams 240 FluidType.RL 1).current_hematocrit_dynamic <
      cx8State.current_hematocrit_dynamic := by
  refine ⟨by decide, by decide, by decide, ?_⟩
  exact (C8_hemoglobin_mass refOps cx8State flatParams 240 FluidType.RL 1
    (by decide) (by decide) (by decide) (by norm_num) (by norm_num)
    (by decide) (by decide)).1 (by decide) (by decide)

/-- C9 (confirmed): the supervisor raises the cerebral-edema flag exactly
when fluid has been infused and the cumulative infused fluid's mean sodium
(total sodium load times 1000 over total infused volume) is below 130 mEq/L
while the patient input's sodium exceeds 145, or that mean is more than
15 mEq/L below the patient input's sodium. -/
theorem C9_cerebral_edema_flag (s : SimulationState) (p : PhysiologicalParams)
    (inp : PatientInput) :
    (check_real_time s p inp).risk_cerebral_edema = true ↔
      (0 < s.total_volume_infused_ml ∧
        ((145 < inp.current_sodium ∧
            s.total_sodium_load_meq * 1000 / s.total_volume_infused_ml < 130) ∨
          s.total_sodium_load_meq * 1000 / s.total_volume_infused_ml <
            inp.current_sodium - 15)) := by
  unfold check_real_time
  by_cases h : 0 < s.total_volume_infused_ml
  · simp [h]
  · simp [h]

end PediaFlow
